import Mathlib

/-!
A verification development for the lead-generation-agent repository.

The Python source is shallowly embedded: text is modelled as `List Char`,
Python's `str.strip` / `str.split` / substring containment are given
executable definitions, and the three core components (the message
validator and retry loop of `src/agents/conversation_agent.py`, the job
polling loop of `src/integrations/phantombuster.py`, and the CRM lead
store of `src/integrations/monday_client.py`) become pure Lean functions.
Network services (the generative text service, the job service, the CRM)
are injected as explicit response scripts, matching how the repository's
own tests mock them.
-/

namespace LeadGen

/-- Python whitespace predicate used by `str.strip()` and `str.split()`
(ASCII whitespace: space, tab, newline, carriage return, vertical tab,
form feed). -/
def isPySpace (c : Char) : Bool :=
  c = ' ' || c = '\t' || c = '\n' || c = '\x0d' || c = '\x0b' || c = '\x0c'

/-- Python `str.lstrip()`: drop leading whitespace. -/
def pyStripStart (s : List Char) : List Char := s.dropWhile isPySpace

/-- Python `str.rstrip()`: drop trailing whitespace. -/
def pyStripEnd (s : List Char) : List Char := (s.reverse.dropWhile isPySpace).reverse

/-- Python `str.strip()`: drop leading and trailing whitespace. -/
def pyStrip (s : List Char) : List Char := pyStripEnd (pyStripStart s)

/-- Python `s.split()` with no separator: maximal runs of non-whitespace
characters, empty runs dropped.  `acc` holds the current word reversed. -/
def pySplitGo : List Char → List Char → List (List Char)
  | [], acc => if acc = [] then [] else [acc.reverse]
  | c :: t, acc =>
    if isPySpace c then
      if acc = [] then pySplitGo t [] else acc.reverse :: pySplitGo t []
    else pySplitGo t (c :: acc)

/-- Python `s.split()` (whitespace split, dropping empty fields). -/
def pySplit (s : List Char) : List (List Char) := pySplitGo s []

/-- Python `len(s.split())`, the word count used by the validator. -/
def pyWordCount (s : List Char) : Nat := (pySplit s).length

/-- Holds when `pat` is a leading segment of `s` (helper for substring search). -/
def leadsWith : List Char → List Char → Bool
  | [], _ => true
  | _ :: _, [] => false
  | a :: pa, b :: sb => a = b && leadsWith pa sb

/-- Python's `pat in s` substring containment. -/
def strContains (pat : List Char) : List Char → Bool
  | [] => leadsWith pat []
  | c :: t => leadsWith pat (c :: t) || strContains pat t

/-! ## Conversation agent (`src/agents/conversation_agent.py`) -/

/-- The `MessageType` enum of the conversation agent. -/
inductive MessageType
  | first_outreach
  | follow_up
  | reply
  | meeting_request
  deriving DecidableEq, Repr

/-- The validation errors `_validate_message` can append.  Each
constructor stands for one of the distinct f-string messages the Python
code builds (the word-count message interpolates the count, the flattery
message interpolates the matched word). -/
inductive VError
  | wordCountTooHigh (count : Nat)
  | dashesPresent
  | emptyMessage
  | meetingInFirst
  | flatteryWord (w : List Char)
  deriving DecidableEq, Repr

/-- The `meeting_words` list of `_validate_message`. -/
def meeting_words : List (List Char) :=
  ["פגישה".data, "להיפגש".data, "נפגש".data, "לקבוע".data]

/-- The `flattery_words` list of `_validate_message`. -/
def flattery_words : List (List Char) :=
  ["מרשים".data, "מעריץ".data, "אוהב".data, "נהדר".data, "מדהים".data, "מושלם".data]

/-- Model of `ConversationAgent._validate_message`: accumulates every violated
rule in source order (word count `> 35`, dash characters, emptiness,
first-outreach meeting keywords, first-outreach flattery keywords with a
`break` after the first match) and returns `(len(errors) == 0, errors)`. -/
def validate_message (content : List Char) (message_type : MessageType) :
    Bool × List VError :=
  let wc := pyWordCount content
  let errors : List VError :=
    (if wc > 35 then [VError.wordCountTooHigh wc] else [])
    ++ (if strContains (" - ".data) content || strContains ("–".data) content
          || strContains ("—".data) content then [VError.dashesPresent] else [])
    ++ (if pyStrip content = [] then [VError.emptyMessage] else [])
    ++ (if message_type = MessageType.first_outreach
          && meeting_words.any (fun w => strContains w content)
        then [VError.meetingInFirst] else [])
    ++ (if message_type = MessageType.first_outreach then
          match flattery_words.find? (fun w => strContains w content) with
          | some w => [VError.flatteryWord w]
          | none => []
        else [])
  (errors.length == 0, errors)

/-- The `GeneratedMessage` dataclass. -/
structure GeneratedMessage where
  content : List Char
  message_type : MessageType
  word_count : Nat
  is_valid : Bool
  validation_errors : List VError
  deriving DecidableEq, Repr

/-- Exceptions the generative-service call path can raise (transport or
service failure inside the OpenAI client call of `generate_message`). -/
inductive SvcErr
  | transport
  | service
  deriving DecidableEq, Repr

/-- The pure tail of `ConversationAgent.generate_message`: strip the raw
response, validate it, and package a `GeneratedMessage`. -/
def mkGeneratedMessage (raw : List Char) (message_type : MessageType) :
    GeneratedMessage :=
  let content := pyStrip raw
  let v := validate_message content message_type
  { content := content
    message_type := message_type
    word_count := pyWordCount content
    is_valid := v.1
    validation_errors := v.2 }

/-- Model of `ConversationAgent.generate_message` with the generative service
injected as its response (or its exception, which propagates). -/
def generate_message (resp : Except SvcErr (List Char))
    (message_type : MessageType) : Except SvcErr GeneratedMessage :=
  match resp with
  | Except.error e => Except.error e
  | Except.ok raw => Except.ok (mkGeneratedMessage raw message_type)

/-- The accumulator update of `regenerate_if_invalid`:
`if best_message is None or len(message.validation_errors) <
len(best_message.validation_errors): best_message = message`. -/
def updBest (best : Option GeneratedMessage) (m : GeneratedMessage) :
    Option GeneratedMessage :=
  match best with
  | none => some m
  | some b =>
    if m.validation_errors.length < b.validation_errors.length then some m
    else some b

/-- The `for attempt in range(max_attempts)` loop of
`regenerate_if_invalid`.  `genAt i` is the outcome of the `i`-th
`generate_message` call (its exception propagates immediately).  The
second component counts the `generate_message` calls made.  `n` is the
number of attempts remaining, `i` the next attempt index. -/
def regenLoop (genAt : Nat → Except SvcErr GeneratedMessage) :
    Nat → Nat → Option GeneratedMessage →
    Except SvcErr (Option GeneratedMessage) × Nat
  | 0, _, best => (Except.ok best, 0)
  | n + 1, i, best =>
    match genAt i with
    | Except.error e => (Except.error e, 1)
    | Except.ok m =>
      if m.is_valid then (Except.ok (some m), 1)
      else
        ((regenLoop genAt n (i + 1) (updBest best m)).1,
         (regenLoop genAt n (i + 1) (updBest best m)).2 + 1)

/-- Model of `ConversationAgent.regenerate_if_invalid` with the generative
service injected as a per-call response script `svc` (call `i` of the
mocked client yields `svc i`, as with an `AsyncMock` `side_effect`
list).  Returns the Python return value (`none` models returning the
Python `None` when `max_attempts` is `0`) paired with the number of
`generate_message` calls made. -/
def regenerate_if_invalid (svc : Nat → Except SvcErr (List Char))
    (message_type : MessageType) (max_attempts : Nat) :
    Except SvcErr (Option GeneratedMessage) × Nat :=
  regenLoop (fun i => generate_message (svc i) message_type) max_attempts 0 none

/-! ## PhantomBuster client (`src/integrations/phantombuster.py`) -/

/-- The `AgentStatus` enum. -/
inductive AgentStatus
  | running
  | finished
  | error
  | launching
  deriving DecidableEq, Repr

/-- The fields of the `fetch-output` JSON response that
`get_agent_output` reads (`result.get("status")` may be absent). -/
structure RawOutputResp where
  statusField : Option (List Char)
  containerId : List Char := []
  output : List Char := []
  errorText : List Char := []

/-- The `AgentOutput` dataclass (the fields the claims mention). -/
structure AgentOutput where
  container_id : List Char
  status : AgentStatus
  output : List Char
  error_message : List Char
  deriving DecidableEq, Repr

/-- The status mapping inside `get_agent_output`: start from `FINISHED`,
switch to `RUNNING` when the reported status is exactly `"running"` and
to `ERROR` when it is exactly `"error"`. -/
def map_agent_status (raw : Option (List Char)) : AgentStatus :=
  if raw = some ("running".data) then AgentStatus.running
  else if raw = some ("error".data) then AgentStatus.error
  else AgentStatus.finished

/-- Model of `PhantomBusterClient.get_agent_output` with the job service's JSON
response injected. -/
def get_agent_output (r : RawOutputResp) : AgentOutput :=
  { container_id := r.containerId
    status := map_agent_status r.statusField
    output := r.output
    error_message := r.errorText }

/-- The `while True` loop of `PhantomBusterClient.wait_for_agent`.
`svc n` is the job service's response to the `n`-th poll (the `n`-th
`get_agent_output` call).  Time is the injected clock of the design
notes: only `asyncio.sleep(poll_interval)` advances it, so the elapsed
seconds observed after poll `n` are `n * poll_interval`.  On a
non-`running` status the loop returns the output together with the
number of polls made and sleeps performed; when the elapsed time
exceeds `timeout_seconds` it raises `TimeoutError`, modelled as
`Except.error n` with `n` the sleeps performed so far.  `fuel` bounds
the iterations (`none` means the loop was still spinning after `fuel`
polls); the theorems supply sufficient fuel. -/
def waitLoop (svc : Nat → RawOutputResp) (timeout_seconds poll_interval : Nat) :
    Nat → Nat → Option (Except Nat (AgentOutput × Nat × Nat))
  | 0, _ => none
  | fuel + 1, n =>
    if (get_agent_output (svc n)).status ≠ AgentStatus.running then
      some (Except.ok (get_agent_output (svc n), n + 1, n))
    else if n * poll_interval > timeout_seconds then some (Except.error n)
    else waitLoop svc timeout_seconds poll_interval fuel (n + 1)

/-- Model of `PhantomBusterClient.wait_for_agent` with the job service injected
as a poll-indexed response script. -/
def wait_for_agent (svc : Nat → RawOutputResp)
    (timeout_seconds poll_interval fuel : Nat) :
    Option (Except Nat (AgentOutput × Nat × Nat)) :=
  waitLoop svc timeout_seconds poll_interval fuel 0

/-! ## Monday.com client (`src/integrations/monday_client.py`) -/

/-- Decimal digits of `n`, least significant first (empty for `0`). -/
def natDigitsLE (n : Nat) : List Char :=
  if h : n = 0 then [] else Char.ofNat (48 + n % 10) :: natDigitsLE (n / 10)
  decreasing_by exact Nat.div_lt_self (Nat.pos_of_ne_zero h) (by norm_num)

/-- Decimal representation of a natural number, as Python `str` writes
it. -/
def natRepr (n : Nat) : List Char :=
  if n = 0 then ['0'] else (natDigitsLE n).reverse

/-- Decimal representation of an integer. -/
def intRepr : Int → List Char
  | Int.ofNat n => natRepr n
  | Int.negSucc m => '-' :: natRepr (m + 1)

/-- Accumulating decimal parser over digit characters; `none` on any
non-digit. -/
def parseDigitsGo : List Char → Nat → Option Nat
  | [], acc => some acc
  | c :: t, acc =>
    if '0' ≤ c && c ≤ '9' then parseDigitsGo t (acc * 10 + (c.toNat - 48))
    else none

/-- Binary64 rounding of a natural number to 53 significant bits
(round to nearest, ties to even): the integer Python's `float(text)`
holds for integer-formatted decimal text.  Exact below `2 ^ 53`; above
it, precision is lost exactly as in CPython (for example
`float("9007199254740993")` is `9007199254740992.0`).  The float-range
overflow near `2 ^ 1024` (where CPython's `float` returns `inf` and
`int(inf)` raises an uncaught `OverflowError`) is outside this model;
every theorem below evaluates scores far under that bound. -/
def floatRound53 (n : Nat) : Nat :=
  if n < 2 ^ 53 then n
  else
    let k := Nat.log2 n - 52
    let q := n / 2 ^ k
    let r := n % 2 ^ k
    if r < 2 ^ (k - 1) then q * 2 ^ k
    else if 2 ^ (k - 1) < r then (q + 1) * 2 ^ k
    else if q % 2 = 0 then q * 2 ^ k else (q + 1) * 2 ^ k

/-- Model of `MondayClient._parse_number`: `int(float(value)) if value
else 0`, returning `0` on empty input or a parse failure (the `except`
branch).  The detour through `float` rounds the parsed integer to 53
bits (`floatRound53`), so integer text above `2 ^ 53` loses precision
exactly as in Python. -/
def pyParseNumber (s : List Char) : Int :=
  match s with
  | [] => 0
  | c :: t =>
    if c = '-' then
      match parseDigitsGo t 0 with
      | some n => -(floatRound53 n : Int)
      | none => 0
    else
      match parseDigitsGo (c :: t) 0 with
      | some n => (floatRound53 n : Int)
      | none => 0

/-- The `Lead` dataclass. -/
structure Lead where
  first_name : List Char
  last_name : List Char
  company : List Char
  position : List Char
  linkedin_url : List Char
  status : List Char := "New".data
  email : Option (List Char) := none
  phone : Option (List Char) := none
  source : Option (List Char) := none
  last_message_date : Option (List Char) := none
  next_action_date : Option (List Char) := none
  meeting_date : Option (List Char) := none
  conversation_log : List Char := []
  notes : List Char := []
  lead_score : Int := 0
  item_id : Option (List Char) := none
  deriving DecidableEq, Repr

/-- The column payloads `create_lead` writes (plain string, link object,
status label object, email object, phone object, long-text object, raw
number, date object). -/
inductive ColVal
  | textVal (s : List Char)
  | linkVal (url display : List Char)
  | statusVal (label : List Char)
  | emailVal (address display : List Char)
  | phoneVal (p : List Char)
  | longTextVal (t : List Char)
  | numberVal (n : Int)
  | dateVal (d : List Char)
  deriving DecidableEq, Repr

/-- An entry of `COLUMN_IDS` for the Ksharim Lead Pipeline board. -/
def col_first_name : String := "text_mkz5ee4p"

def col_last_name : String := "text_mkz5z85j"

def col_company : String := "text_mkz58xs9"

def col_position : String := "text_mkz55gcc"

def col_linkedin : String := "link_mkz5m6nn"

def col_status : String := "color_mkz5scfr"

def col_last_message : String := "date_mkz58sks"

def col_conversation : String := "long_text_mkz56sc2"

def col_score : String := "numeric_mkz5p3m6"

def col_email : String := "email_mkz5ram4"

def col_phone : String := "phone_mkz5jdqh"

def col_notes : String := "long_text_mkz5pgk0"

def col_next_action : String := "date_mkz5ddwy"

def col_meeting_date : String := "date_mkz5x0cj"

def col_source : String := "color_mkz5w950"

/-- Python truthiness of an `Optional[str]` field (`None` and `""` are
falsy). -/
def truthyOpt : Option (List Char) → Bool
  | none => false
  | some s => !s.isEmpty

/-- A column written only when an `Optional[str]` field is truthy
(the `if lead.email:`-style guards of `create_lead`). -/
def optStrCol (field : Option (List Char)) (key : String)
    (mk : List Char → ColVal) : List (String × ColVal) :=
  match field with
  | some s => if s.isEmpty then [] else [(key, mk s)]
  | none => []

/-- A column written only when a guard holds. -/
def condCol (cond : Prop) [Decidable cond] (key : String) (v : ColVal) :
    List (String × ColVal) :=
  if cond then [(key, v)] else []

/-- The `column_values` dict `create_lead` builds, in insertion order:
the six always-written columns and then each optional field only when
truthy.  `last_message_date` is not among them: `create_lead` never
writes the last-message column. -/
def create_lead_columns (lead : Lead) : List (String × ColVal) :=
  [(col_first_name, ColVal.textVal lead.first_name),
   (col_last_name, ColVal.textVal lead.last_name),
   (col_company, ColVal.textVal lead.company),
   (col_position, ColVal.textVal lead.position),
   (col_linkedin, ColVal.linkVal lead.linkedin_url ("LinkedIn".data)),
   (col_status, ColVal.statusVal lead.status)]
  ++ optStrCol lead.email col_email (fun e => ColVal.emailVal e e)
  ++ optStrCol lead.phone col_phone ColVal.phoneVal
  ++ optStrCol lead.source col_source ColVal.statusVal
  ++ condCol (¬lead.conversation_log.isEmpty) col_conversation
       (ColVal.longTextVal lead.conversation_log)
  ++ condCol (¬lead.notes.isEmpty) col_notes (ColVal.longTextVal lead.notes)
  ++ condCol (lead.lead_score ≠ 0) col_score (ColVal.numberVal lead.lead_score)
  ++ optStrCol lead.next_action_date col_next_action ColVal.dateVal
  ++ optStrCol lead.meeting_date col_meeting_date ColVal.dateVal

/-- The `item_name` of the `create_item` mutation:
`Lead.full_name = f"{first_name} {last_name}".strip()`. -/
def lead_item_name (lead : Lead) : List Char :=
  pyStrip (lead.first_name ++ ' ' :: lead.last_name)

/-- Column lookup in a stored item (dict lookup by column id). -/
def getCol : List (String × ColVal) → String → Option ColVal
  | [], _ => none
  | (k, v) :: t, id => if k = id then some v else getCol t id

/-- The echo model of the CRM: the `text` rendering the service returns
for a column value it stored (the written string, label, address, or
date back verbatim; numbers in decimal). -/
def renderText : ColVal → List Char
  | ColVal.textVal s => s
  | ColVal.linkVal _ display => display
  | ColVal.statusVal label => label
  | ColVal.emailVal _ display => display
  | ColVal.phoneVal p => p
  | ColVal.longTextVal t => t
  | ColVal.numberVal n => intRepr n
  | ColVal.dateVal d => d

/-- Reading `columns.get(col_id, {}).get("text", "")` against the echo model. -/
def colText (cols : List (String × ColVal)) (id : String) : List Char :=
  match getCol cols id with
  | some v => renderText v
  | none => []

/-- Model of `MondayClient._extract_url` applied to
`columns.get(COLUMN_IDS["linkedin"], {}).get("value")`: the `url` field
of the stored link JSON, `""` when the column is missing or its JSON has
no `url` key. -/
def extract_url : Option ColVal → List Char
  | some (ColVal.linkVal url _) => url
  | some _ => []
  | none => []

/-- Python `name.split(" ", 1)` as the pair (head, tail-or-empty). -/
def splitFirstSpace : List Char → List Char × List Char
  | [] => ([], [])
  | c :: t =>
    if c = ' ' then ([], t)
    else
      let r := splitFirstSpace t
      (c :: r.1, r.2)

/-- The name-column fallback of `_parse_lead_from_item`: when both name
columns are empty and the item has a display name, split the display
name at the first space. -/
def parse_names (fn0 ln0 item_name : List Char) : List Char × List Char :=
  if fn0.isEmpty && ln0.isEmpty && !item_name.isEmpty then
    splitFirstSpace item_name
  else (fn0, ln0)

/-- Model of `MondayClient._parse_lead_from_item`: read every column's text with
empty-string defaults, fall back to splitting the item display name when
both name columns are empty, extract the link URL from the raw column
value, and parse the numeric score. -/
def parse_lead_from_item (item_id item_name : List Char)
    (cols : List (String × ColVal)) : Lead :=
  { first_name := (parse_names (colText cols col_first_name)
      (colText cols col_last_name) item_name).1
    last_name := (parse_names (colText cols col_first_name)
      (colText cols col_last_name) item_name).2
    company := colText cols col_company
    position := colText cols col_position
    linkedin_url := extract_url (getCol cols col_linkedin)
    status := colText cols col_status
    email := some (colText cols col_email)
    phone := some (colText cols col_phone)
    source := some (colText cols col_source)
    last_message_date := some (colText cols col_last_message)
    next_action_date := some (colText cols col_next_action)
    meeting_date := some (colText cols col_meeting_date)
    conversation_log := colText cols col_conversation
    notes := colText cols col_notes
    lead_score := pyParseNumber (colText cols col_score)
    item_id := some item_id }

/-- Composition of `create_lead` and `get_lead_by_id` on the created item,
against a CRM that stores the written column values and echoes them
back: the item the CRM holds has the server-assigned `new_id`, the
display name `lead_item_name lead`, and the written columns. -/
def create_then_get (lead : Lead) (new_id : List Char) : Lead :=
  parse_lead_from_item new_id (lead_item_name lead) (create_lead_columns lead)

/-- The text update `append_to_conversation_log` writes: the read log,
a blank line, the bracketed timestamp, the message, all stripped
(`f"{current_log}\n\n[{timestamp}]\n{message}".strip()`).  `ts` is the
clock's `datetime.now().strftime("%Y-%m-%d %H:%M")` rendering. -/
def append_log_text (current_log ts message : List Char) : List Char :=
  pyStrip (current_log ++ '\n' :: '\n' :: '[' :: (ts ++ ']' :: '\n' :: message))

/-- Two sequential `append_to_conversation_log` calls: the second call
reads back exactly the value the first wrote. -/
def append_log_twice (initial ts1 m1 ts2 m2 : List Char) : List Char :=
  append_log_text (append_log_text initial ts1 m1) ts2 m2

/-- JSON values, for the CRM's GraphQL response. -/
inductive Json
  | null
  | str (s : String)
  | num (n : Int)
  | boolean (b : Bool)
  | arr (elems : List Json)
  | obj (fields : List (String × Json))

/-- Errors Python can raise while the client handles a response, plus
the spec's `ServiceError` for comparison (the embedded code never
produces it). -/
inductive PyErr
  | keyErr (k : String)
  | typeErr
  | serviceErr (msg : String)
  deriving DecidableEq, Repr

/-- Dict lookup inside a JSON object. -/
def jsonGet : List (String × Json) → String → Option Json
  | [], _ => none
  | (k, v) :: t, key => if k = key then some v else jsonGet t key

/-- Python subscript `j[k]`: `KeyError` on a dict without the key,
`TypeError` on a non-dict (including `None`). -/
def pyIndex (j : Json) (k : String) : Except PyErr Json :=
  match j with
  | Json.obj fields =>
    match jsonGet fields k with
    | some v => Except.ok v
    | none => Except.error (PyErr.keyErr k)
  | _ => Except.error PyErr.typeErr

/-- The final line of `MondayClient.create_lead`,
`result["data"]["create_item"]["id"]`, applied to the CRM's JSON
response (after `raise_for_status` passed, i.e. the service responded).
`_execute_query` performs no inspection of the body, so this subscript
chain is the only place a non-success response can surface. -/
def create_lead_extract_id (resp : Json) : Except PyErr Json := do
  let d ← pyIndex resp ("data")
  let ci ← pyIndex d ("create_item")
  pyIndex ci ("id")

/-- Concrete generative-service script: the first call returns a draft
with a spaced dash (invalid), the second call raises a transport error. -/
def cexSvcC2 : Nat → Except SvcErr (List Char)
  | 0 => Except.ok ("hi - there".data)
  | _ => Except.error SvcErr.transport

/-- Concrete generative-service script that always returns a clean
two-word draft. -/
def witSvcC2 : Nat → Except SvcErr (List Char) :=
  fun _ => Except.ok ("hello friend".data)

/-- The best-draft accumulator of `regenerate_if_invalid` folded over
the drafts `d i, …, d (i + n - 1)` (a proof device for stating what the
loop's accumulator holds). -/
def foldUpd (d : Nat → GeneratedMessage) :
    Nat → Nat → Option GeneratedMessage → Option GeneratedMessage
  | 0, _, best => best
  | n + 1, i, best => foldUpd d n (i + 1) (updBest best (d i))

/-- Concrete generative-service script for the C1 witness: an invalid
first draft, then a valid one. -/
def witSvcC1 : Nat → List Char
  | 0 => "bad - text".data
  | _ => "good text".data

/-! ## Helper lemmas: the validator -/

lemma mem_wordCount_validate (content : List Char) (mt : MessageType) (n : Nat) :
    VError.wordCountTooHigh n ∈ (validate_message content mt).2 ↔
      35 < pyWordCount content ∧ n = pyWordCount content := by
  unfold validate_message
  simp only [List.mem_append]
  constructor
  · rintro ((((h | h) | h) | h) | h)
    · split_ifs at h with hc
      · simp only [List.mem_singleton, VError.wordCountTooHigh.injEq] at h
        exact ⟨hc, h⟩
      · simp at h
    · split_ifs at h <;> simp_all
    · split_ifs at h <;> simp_all
    · split_ifs at h <;> simp_all
    · split_ifs at h with hc
      · rcases hf : flattery_words.find? (fun w => strContains w content) with _ | w <;>
          rw [hf] at h <;> simp_all
      · simp at h
  · rintro ⟨hc, rfl⟩
    left; left; left; left
    simp [hc]

/-! ## Helper lemmas: the retry loop -/

lemma updBest_isSome (best : Option GeneratedMessage) (m : GeneratedMessage) :
    ∃ b, updBest best m = some b := by
  rcases best with _ | b
  · exact ⟨m, rfl⟩
  · by_cases h : m.validation_errors.length < b.validation_errors.length
    · exact ⟨m, by simp [updBest, h]⟩
    · exact ⟨b, by simp [updBest, h]⟩

lemma regenLoop_error_iff (genAt : Nat → Except SvcErr GeneratedMessage) (e : SvcErr) :
    ∀ n i best, (regenLoop genAt n i best).1 = Except.error e ↔
      ∃ t, t < n ∧ genAt (i + t) = Except.error e ∧
        ∀ k, k < t → ∃ m, genAt (i + k) = Except.ok m ∧ m.is_valid = false := by
  intro n
  induction n with
  | zero =>
    intro i best
    simp [regenLoop]
  | succ n ih =>
    intro i best
    rcases hg : genAt i with e' | m
    · simp only [regenLoop, hg]
      constructor
      · intro h
        have he : e' = e := by simpa using h
        refine ⟨0, by omega, ?_, fun k hk => absurd hk (by omega)⟩
        rw [Nat.add_zero, hg, he]
      · rintro ⟨t, ht, hterr, hprev⟩
        rcases t with _ | t'
        · rw [Nat.add_zero, hg] at hterr
          have he : e' = e := by simpa using hterr
          rw [he]
        · obtain ⟨m, hm, _⟩ := hprev 0 (by omega)
          rw [Nat.add_zero, hg] at hm
          exact absurd hm (by simp)
    · by_cases hv : m.is_valid
      · simp only [regenLoop, hg, if_pos hv]
        constructor
        · intro h
          exact absurd h (by simp)
        · rintro ⟨t, ht, hterr, hprev⟩
          rcases t with _ | t'
          · rw [Nat.add_zero, hg] at hterr
            exact absurd hterr (by simp)
          · obtain ⟨m', hm', hinv⟩ := hprev 0 (by omega)
            rw [Nat.add_zero, hg] at hm'
            have hmm : m = m' := by simpa using hm'
            rw [hmm, hinv] at hv
            exact absurd hv (by simp)
      · simp only [regenLoop, hg, if_neg hv]
        rw [ih (i + 1) (updBest best m)]
        constructor
        · rintro ⟨t', ht', hterr, hprev⟩
          refine ⟨t' + 1, by omega, ?_, ?_⟩
          · rw [show i + (t' + 1) = i + 1 + t' by omega]
            exact hterr
          · intro k hk
            rcases k with _ | k'
            · refine ⟨m, by rwa [Nat.add_zero], by simpa using hv⟩
            · obtain ⟨m', hm', hinv⟩ := hprev k' (by omega)
              refine ⟨m', ?_, hinv⟩
              rwa [show i + (k' + 1) = i + 1 + k' by omega]
        · rintro ⟨t, ht, hterr, hprev⟩
          rcases t with _ | t'
          · rw [Nat.add_zero, hg] at hterr
            exact absurd hterr (by simp)
          · refine ⟨t', by omega, ?_, ?_⟩
            · rwa [show i + 1 + t' = i + (t' + 1) by omega]
            · intro k hk
              obtain ⟨m', hm', hinv⟩ := hprev (k + 1) (by omega)
              refine ⟨m', ?_, hinv⟩
              rwa [show i + (k + 1) = i + 1 + k by omega] at hm'

lemma regenLoop_from_some_not_none (genAt : Nat → Except SvcErr GeneratedMessage) :
    ∀ n i m, (regenLoop genAt n i (some m)).1 ≠ Except.ok none := by
  intro n
  induction n with
  | zero =>
    intro i m
    simp [regenLoop]
  | succ n ih =>
    intro i m
    rcases hg : genAt i with e' | m'
    · simp [regenLoop, hg]
    · by_cases hv : m'.is_valid
      · simp [regenLoop, hg, if_pos hv]
      · simp only [regenLoop, hg, if_neg hv]
        obtain ⟨b, hb⟩ := updBest_isSome (some m) m'
        rw [hb]
        exact ih (i + 1) b

lemma regenLoop_ok_none_iff (genAt : Nat → Except SvcErr GeneratedMessage)
    (n : Nat) : (regenLoop genAt n 0 none).1 = Except.ok none ↔ n = 0 := by
  rcases n with _ | n'
  · simp [regenLoop]
  · rcases hg : genAt 0 with e' | m
    · simp [regenLoop, hg]
    · by_cases hv : m.is_valid
      · simp [regenLoop, hg, if_pos hv]
      · simp only [regenLoop, hg, if_neg hv]
        have hupd : updBest none m = some m := rfl
        rw [hupd]
        simp only [Nat.succ_ne_zero, iff_false]
        exact regenLoop_from_some_not_none genAt n' 1 m

lemma regenLoop_step_valid (genAt : Nat → Except SvcErr GeneratedMessage)
    (n i : Nat) (best : Option GeneratedMessage) (m : GeneratedMessage)
    (hg : genAt i = Except.ok m) (hv : m.is_valid = true) :
    regenLoop genAt (n + 1) i best = (Except.ok (some m), 1) := by
  simp [regenLoop, hg, hv]

lemma regenLoop_step_invalid (genAt : Nat → Except SvcErr GeneratedMessage)
    (n i : Nat) (best : Option GeneratedMessage) (m : GeneratedMessage)
    (hg : genAt i = Except.ok m) (hv : m.is_valid = false) :
    regenLoop genAt (n + 1) i best =
      ((regenLoop genAt n (i + 1) (updBest best m)).1,
       (regenLoop genAt n (i + 1) (updBest best m)).2 + 1) := by
  simp [regenLoop, hg, hv]

lemma regenLoop_ok_skip (d : Nat → GeneratedMessage) :
    ∀ j n i best, j ≤ n → (∀ k, k < j → (d (i + k)).is_valid = false) →
      regenLoop (fun x => Except.ok (d x)) n i best =
        ((regenLoop (fun x => Except.ok (d x)) (n - j) (i + j) (foldUpd d j i best)).1,
         (regenLoop (fun x => Except.ok (d x)) (n - j) (i + j) (foldUpd d j i best)).2 + j) := by
  intro j
  induction j with
  | zero =>
    intro n i best _ _
    simp [foldUpd]
  | succ j ih =>
    intro n i best hj hinv
    obtain ⟨n', rfl⟩ : ∃ n', n = n' + 1 := ⟨n - 1, by omega⟩
    have h0 : (d i).is_valid = false := by simpa using hinv 0 (by omega)
    rw [regenLoop_step_invalid _ _ _ _ _ rfl h0]
    have hinv' : ∀ k, k < j → (d (i + 1 + k)).is_valid = false := by
      intro k hk
      have := hinv (k + 1) (by omega)
      rwa [show i + (k + 1) = i + 1 + k by omega] at this
    rw [ih n' (i + 1) (updBest best (d i)) (by omega) hinv']
    rw [show n' + 1 - (j + 1) = n' - j by omega,
        show i + (j + 1) = i + 1 + j by omega,
        show foldUpd d (j + 1) i best = foldUpd d j (i + 1) (updBest best (d i)) from rfl]
    simp [Nat.add_assoc]

lemma foldUpd_argmin (d : Nat → GeneratedMessage) :
    ∀ n i best,
      ((i = 0 ∧ best = none) ∨
        (∃ j, j < i ∧ best = some (d j) ∧
          (∀ k, k < i →
            (d j).validation_errors.length ≤ (d k).validation_errors.length) ∧
          (∀ k, k < j →
            (d j).validation_errors.length < (d k).validation_errors.length))) →
      ((i + n = 0 ∧ foldUpd d n i best = none) ∨
        (∃ j, j < i + n ∧ foldUpd d n i best = some (d j) ∧
          (∀ k, k < i + n →
            (d j).validation_errors.length ≤ (d k).validation_errors.length) ∧
          (∀ k, k < j →
            (d j).validation_errors.length < (d k).validation_errors.length))) := by
  intro n
  induction n with
  | zero =>
    intro i best h
    simpa [foldUpd] using h
  | succ n ih =>
    intro i best h
    have hstep : ((i + 1 = 0 ∧ updBest best (d i) = none) ∨
        (∃ j, j < i + 1 ∧ updBest best (d i) = some (d j) ∧
          (∀ k, k < i + 1 →
            (d j).validation_errors.length ≤ (d k).validation_errors.length) ∧
          (∀ k, k < j →
            (d j).validation_errors.length < (d k).validation_errors.length))) := by
      right
      rcases h with ⟨hi0, hbn⟩ | ⟨j, hj, hbj, hmin, hstrict⟩
      · subst hi0
        subst hbn
        refine ⟨0, by omega, rfl, ?_, ?_⟩
        · intro k hk
          have : k = 0 := by omega
          subst this
          exact le_refl _
        · intro k hk
          exact absurd hk (by omega)
      · subst hbj
        by_cases hlt : (d i).validation_errors.length < (d j).validation_errors.length
        · refine ⟨i, by omega, by simp [updBest, if_pos hlt], ?_, ?_⟩
          · intro k hk
            by_cases hki : k < i
            · have := hmin k hki
              omega
            · have : k = i := by omega
              subst this
              exact le_refl _
          · intro k hk
            have := hmin k (by omega)
            omega
        · refine ⟨j, by omega, by simp [updBest, if_neg hlt], ?_, hstrict⟩
          intro k hk
          by_cases hki : k < i
          · exact hmin k hki
          · have : k = i := by omega
            subst this
            omega
    have hrec := ih (i + 1) (updBest best (d i)) hstep
    rw [show foldUpd d (n + 1) i best = foldUpd d n (i + 1) (updBest best (d i))
      from rfl]
    rw [show i + (n + 1) = (i + 1) + n by omega]
    exact hrec

/-! ## Helper lemmas: Python strip -/

lemma dropWhile_append_ne (p : Char → Bool) (x y : List Char)
    (h : x.dropWhile p ≠ []) :
    (x ++ y).dropWhile p = x.dropWhile p ++ y := by
  induction x with
  | nil => simp at h
  | cons c t ih =>
    by_cases hp : p c
    · have h' : t.dropWhile p ≠ [] := by simpa [List.dropWhile_cons, hp] using h
      simp only [List.cons_append, List.dropWhile_cons, hp, if_true]
      exact ih h'
    · simp [List.dropWhile_cons, hp]

lemma dropWhile_append_nil (p : Char → Bool) (x y : List Char)
    (h : x.dropWhile p = []) :
    (x ++ y).dropWhile p = y.dropWhile p := by
  induction x with
  | nil => simp
  | cons c t ih =>
    by_cases hp : p c
    · have h' : t.dropWhile p = [] := by simpa [List.dropWhile_cons, hp] using h
      simp only [List.cons_append, List.dropWhile_cons, hp, if_true]
      exact ih h'
    · simp [List.dropWhile_cons, hp] at h

lemma pyStripEnd_append (x y : List Char) (hy : y ≠ [])
    (hye : pyStripEnd y = y) : pyStripEnd (x ++ y) = x ++ y := by
  have hrd : List.rdropWhile isPySpace y = y := hye
  have hlast : ¬isPySpace (y.getLast hy) = true :=
    List.rdropWhile_eq_self_iff.mp hrd hy
  have hdecomp : x ++ y = (x ++ y.dropLast) ++ [y.getLast hy] := by
    rw [List.append_assoc, List.dropLast_append_getLast hy]
  show List.rdropWhile isPySpace (x ++ y) = x ++ y
  rw [hdecomp, List.rdropWhile_concat_neg _ _ _ hlast]

lemma pyStripStart_head_cons (x : List Char) (c : Char) (t : List Char)
    (h : pyStripStart x = c :: t) : isPySpace c = false := by
  induction x with
  | nil => exact absurd h (by simp [pyStripStart])
  | cons a b ih =>
    by_cases hp : isPySpace a
    · have h' : pyStripStart b = c :: t := by
        rw [show pyStripStart (a :: b) = if isPySpace a = true then pyStripStart b
          else a :: b from List.dropWhile_cons] at h
        rwa [if_pos hp] at h
      exact ih h'
    · have h' : a :: b = c :: t := by
        rw [show pyStripStart (a :: b) = if isPySpace a = true then pyStripStart b
          else a :: b from List.dropWhile_cons] at h
        rwa [if_neg hp] at h
      rw [List.cons.injEq] at h'
      rw [← h'.1]
      simpa using hp

lemma pyStripStart_cons_append (c : Char) (t y : List Char)
    (hc : isPySpace c = false) :
    pyStripStart ((c :: t) ++ y) = (c :: t) ++ y := by
  show ((c :: t) ++ y).dropWhile isPySpace = _
  simp [List.dropWhile_cons, hc]

lemma append_log_text_char (L ts m : List Char) (hm : m ≠ [])
    (hme : pyStripEnd m = m) :
    append_log_text L ts m =
      (if pyStripStart L = [] then '[' :: (ts ++ ']' :: '\n' :: m)
       else pyStripStart L ++ '\n' :: '\n' :: '[' :: (ts ++ ']' :: '\n' :: m)) := by
  have hsplit : ∀ z : List Char, '[' :: (ts ++ ']' :: '\n' :: m) =
      ('[' :: (ts ++ [']', '\n'])) ++ m := by
    intro _
    simp
  by_cases hL : pyStripStart L = []
  · rw [if_pos hL]
    show pyStripEnd (pyStripStart (L ++ _)) = _
    rw [show pyStripStart (L ++ '\n' :: '\n' :: '[' :: (ts ++ ']' :: '\n' :: m)) =
      ('\n' :: '\n' :: '[' :: (ts ++ ']' :: '\n' :: m)).dropWhile isPySpace
      from dropWhile_append_nil _ _ _ hL]
    rw [show ('\n' :: '\n' :: '[' :: (ts ++ ']' :: '\n' :: m)).dropWhile isPySpace =
      '[' :: (ts ++ ']' :: '\n' :: m) by
        simp [List.dropWhile_cons, show isPySpace '\n' = true from by decide,
          show isPySpace '[' = false from by decide]]
    rw [hsplit []]
    rw [pyStripEnd_append _ _ hm hme]
  · rw [if_neg hL]
    show pyStripEnd (pyStripStart (L ++ _)) = _
    rw [show pyStripStart (L ++ '\n' :: '\n' :: '[' :: (ts ++ ']' :: '\n' :: m)) =
      pyStripStart L ++ '\n' :: '\n' :: '[' :: (ts ++ ']' :: '\n' :: m)
      from dropWhile_append_ne _ _ _ hL]
    rw [show pyStripStart L ++ '\n' :: '\n' :: '[' :: (ts ++ ']' :: '\n' :: m) =
      (pyStripStart L ++ '\n' :: '\n' :: '[' :: (ts ++ [']', '\n'])) ++ m by simp]
    rw [pyStripEnd_append _ _ hm hme]

/-! ## Helper lemmas: the polling loop -/

lemma waitLoop_step_return (svc : Nat → RawOutputResp) (tS pI fuel n : Nat)
    (h : (get_agent_output (svc n)).status ≠ AgentStatus.running) :
    waitLoop svc tS pI (fuel + 1) n =
      some (Except.ok (get_agent_output (svc n), n + 1, n)) := by
  unfold waitLoop
  rw [if_pos h]

lemma waitLoop_step_continue (svc : Nat → RawOutputResp) (tS pI fuel n : Nat)
    (hrun : (get_agent_output (svc n)).status = AgentStatus.running)
    (htime : ¬n * pI > tS) :
    waitLoop svc tS pI (fuel + 1) n = waitLoop svc tS pI fuel (n + 1) := by
  conv_lhs => unfold waitLoop
  rw [if_neg (by simp [hrun]), if_neg htime]

lemma waitLoop_step_timeout (svc : Nat → RawOutputResp) (tS pI fuel n : Nat)
    (hrun : (get_agent_output (svc n)).status = AgentStatus.running)
    (htime : n * pI > tS) :
    waitLoop svc tS pI (fuel + 1) n = some (Except.error n) := by
  unfold waitLoop
  rw [if_neg (by simp [hrun]), if_pos htime]

lemma waitLoop_always_running_times_out (svc : Nat → RawOutputResp) (tS pI : Nat)
    (hrun : ∀ n, (get_agent_output (svc n)).status = AgentStatus.running)
    (hpI : 1 ≤ pI) :
    ∀ fuel n, tS / pI + 2 ≤ fuel + n → n ≤ tS / pI + 1 →
      waitLoop svc tS pI fuel n = some (Except.error (tS / pI + 1)) := by
  intro fuel
  induction fuel with
  | zero => intro n h1 h2; omega
  | succ f ih =>
    intro n h1 h2
    by_cases hn : n * pI > tS
    · have hlt : tS / pI < n := by
        rw [Nat.div_lt_iff_lt_mul hpI]
        exact hn
      have hn0 : n = tS / pI + 1 := by omega
      rw [waitLoop_step_timeout _ _ _ _ _ (hrun n) hn, hn0]
    · have hle : n ≤ tS / pI := by
        by_contra hc
        push_neg at hc
        exact hn ((Nat.div_lt_iff_lt_mul hpI).1 hc)
      rw [waitLoop_step_continue _ _ _ _ _ (hrun n) hn]
      exact ih (n + 1) (by omega) (by omega)

/-! ## Helper lemmas: column lookup -/

lemma getCol_append (xs ys : List (String × ColVal)) (k : String) :
    getCol (xs ++ ys) k =
      match getCol xs k with
      | some v => some v
      | none => getCol ys k := by
  induction xs with
  | nil => rfl
  | cons p t ih =>
    rcases p with ⟨a, v⟩
    by_cases h : a = k
    · simp [getCol, h]
    · simp [getCol, h, ih]

lemma getCol_optStrCol_ne (field : Option (List Char)) (key : String)
    (mk : List Char → ColVal) (k : String) (h : ¬key = k) :
    getCol (optStrCol field key mk) k = none := by
  rcases field with _ | s
  · rfl
  · by_cases he : s.isEmpty
    · simp [optStrCol, he, getCol]
    · simp [optStrCol, he, getCol, h]

lemma getCol_optStrCol_self (field : Option (List Char)) (key : String)
    (mk : List Char → ColVal) :
    getCol (optStrCol field key mk) key =
      match field with
      | some s => if s.isEmpty then none else some (mk s)
      | none => none := by
  rcases field with _ | s
  · rfl
  · by_cases he : s.isEmpty
    · simp [optStrCol, he, getCol]
    · simp [optStrCol, he, getCol]

lemma getCol_condCol_ne (cond : Prop) [Decidable cond] (key : String)
    (v : ColVal) (k : String) (h : ¬key = k) :
    getCol (condCol cond key v) k = none := by
  by_cases hc : cond
  · simp [condCol, hc, getCol, h]
  · simp [condCol, hc, getCol]

lemma getCol_condCol_self (cond : Prop) [Decidable cond] (key : String)
    (v : ColVal) :
    getCol (condCol cond key v) key = if cond then some v else none := by
  by_cases hc : cond
  · simp [condCol, hc, getCol]
  · simp [condCol, hc, getCol]

/-! ## Helper lemmas: the columns create_lead writes -/

lemma getCol_create_first_name (lead : Lead) :
    getCol (create_lead_columns lead) col_first_name = some (ColVal.textVal lead.first_name) := by
  simp [create_lead_columns, getCol_append, getCol_optStrCol_ne, getCol_condCol_ne,
      getCol_optStrCol_self, getCol_condCol_self, getCol, col_first_name, col_last_name,
      col_company, col_position, col_linkedin, col_status, col_email, col_phone,
      col_source, col_conversation, col_notes, col_score, col_next_action,
      col_meeting_date, col_last_message]

lemma getCol_create_last_name (lead : Lead) :
    getCol (create_lead_columns lead) col_last_name = some (ColVal.textVal lead.last_name) := by
  simp [create_lead_columns, getCol_append, getCol_optStrCol_ne, getCol_condCol_ne,
      getCol_optStrCol_self, getCol_condCol_self, getCol, col_first_name, col_last_name,
      col_company, col_position, col_linkedin, col_status, col_email, col_phone,
      col_source, col_conversation, col_notes, col_score, col_next_action,
      col_meeting_date, col_last_message]

lemma getCol_create_company (lead : Lead) :
    getCol (create_lead_columns lead) col_company = some (ColVal.textVal lead.company) := by
  simp [create_lead_columns, getCol_append, getCol_optStrCol_ne, getCol_condCol_ne,
      getCol_optStrCol_self, getCol_condCol_self, getCol, col_first_name, col_last_name,
      col_company, col_position, col_linkedin, col_status, col_email, col_phone,
      col_source, col_conversation, col_notes, col_score, col_next_action,
      col_meeting_date, col_last_message]

lemma getCol_create_position (lead : Lead) :
    getCol (create_lead_columns lead) col_position = some (ColVal.textVal lead.position) := by
  simp [create_lead_columns, getCol_append, getCol_optStrCol_ne, getCol_condCol_ne,
      getCol_optStrCol_self, getCol_condCol_self, getCol, col_first_name, col_last_name,
      col_company, col_position, col_linkedin, col_status, col_email, col_phone,
      col_source, col_conversation, col_notes, col_score, col_next_action,
      col_meeting_date, col_last_message]

lemma getCol_create_linkedin (lead : Lead) :
    getCol (create_lead_columns lead) col_linkedin = some (ColVal.linkVal lead.linkedin_url ("LinkedIn".data)) := by
  simp [create_lead_columns, getCol_append, getCol_optStrCol_ne, getCol_condCol_ne,
      getCol_optStrCol_self, getCol_condCol_self, getCol, col_first_name, col_last_name,
      col_company, col_position, col_linkedin, col_status, col_email, col_phone,
      col_source, col_conversation, col_notes, col_score, col_next_action,
      col_meeting_date, col_last_message]

lemma getCol_create_status (lead : Lead) :
    getCol (create_lead_columns lead) col_status = some (ColVal.statusVal lead.status) := by
  simp [create_lead_columns, getCol_append, getCol_optStrCol_ne, getCol_condCol_ne,
      getCol_optStrCol_self, getCol_condCol_self, getCol, col_first_name, col_last_name,
      col_company, col_position, col_linkedin, col_status, col_email, col_phone,
      col_source, col_conversation, col_notes, col_score, col_next_action,
      col_meeting_date, col_last_message]

lemma getCol_create_email (lead : Lead) :
    getCol (create_lead_columns lead) col_email =
      match lead.email with
      | some s => if s.isEmpty then none else some (ColVal.emailVal s s)
      | none => none := by
  rcases hf : lead.email with _ | s
  · simp [hf, create_lead_columns, getCol_append, getCol_optStrCol_ne, getCol_condCol_ne,
      getCol_optStrCol_self, getCol_condCol_self, getCol, col_first_name, col_last_name,
      col_company, col_position, col_linkedin, col_status, col_email, col_phone,
      col_source, col_conversation, col_notes, col_score, col_next_action,
      col_meeting_date, col_last_message]
  · by_cases hfe : s.isEmpty <;> simp [hf, hfe, create_lead_columns, getCol_append, getCol_optStrCol_ne, getCol_condCol_ne,
      getCol_optStrCol_self, getCol_condCol_self, getCol, col_first_name, col_last_name,
      col_company, col_position, col_linkedin, col_status, col_email, col_phone,
      col_source, col_conversation, col_notes, col_score, col_next_action,
      col_meeting_date, col_last_message]

lemma getCol_create_phone (lead : Lead) :
    getCol (create_lead_columns lead) col_phone =
      match lead.phone with
      | some s => if s.isEmpty then none else some (ColVal.phoneVal s)
      | none => none := by
  rcases hf : lead.phone with _ | s
  · simp [hf, create_lead_columns, getCol_append, getCol_optStrCol_ne, getCol_condCol_ne,
      getCol_optStrCol_self, getCol_condCol_self, getCol, col_first_name, col_last_name,
      col_company, col_position, col_linkedin, col_status, col_email, col_phone,
      col_source, col_conversation, col_notes, col_score, col_next_action,
      col_meeting_date, col_last_message]
  · by_cases hfe : s.isEmpty <;> simp [hf, hfe, create_lead_columns, getCol_append, getCol_optStrCol_ne, getCol_condCol_ne,
      getCol_optStrCol_self, getCol_condCol_self, getCol, col_first_name, col_last_name,
      col_company, col_position, col_linkedin, col_status, col_email, col_phone,
      col_source, col_conversation, col_notes, col_score, col_next_action,
      col_meeting_date, col_last_message]

lemma getCol_create_source (lead : Lead) :
    getCol (create_lead_columns lead) col_source =
      match lead.source with
      | some s => if s.isEmpty then none else some (ColVal.statusVal s)
      | none => none := by
  rcases hf : lead.source with _ | s
  · simp [hf, create_lead_columns, getCol_append, getCol_optStrCol_ne, getCol_condCol_ne,
      getCol_optStrCol_self, getCol_condCol_self, getCol, col_first_name, col_last_name,
      col_company, col_position, col_linkedin, col_status, col_email, col_phone,
      col_source, col_conversation, col_notes, col_score, col_next_action,
      col_meeting_date, col_last_message]
  · by_cases hfe : s.isEmpty <;> simp [hf, hfe, create_lead_columns, getCol_append, getCol_optStrCol_ne, getCol_condCol_ne,
      getCol_optStrCol_self, getCol_condCol_self, getCol, col_first_name, col_last_name,
      col_company, col_position, col_linkedin, col_status, col_email, col_phone,
      col_source, col_conversation, col_notes, col_score, col_next_action,
      col_meeting_date, col_last_message]

lemma getCol_create_conversation (lead : Lead) :
    getCol (create_lead_columns lead) col_conversation =
      if lead.conversation_log.isEmpty then none else some (ColVal.longTextVal lead.conversation_log) := by
  by_cases hc : lead.conversation_log.isEmpty <;> simp [hc, create_lead_columns, getCol_append, getCol_optStrCol_ne, getCol_condCol_ne,
      getCol_optStrCol_self, getCol_condCol_self, getCol, col_first_name, col_last_name,
      col_company, col_position, col_linkedin, col_status, col_email, col_phone,
      col_source, col_conversation, col_notes, col_score, col_next_action,
      col_meeting_date, col_last_message]

lemma getCol_create_notes (lead : Lead) :
    getCol (create_lead_columns lead) col_notes =
      if lead.notes.isEmpty then none else some (ColVal.longTextVal lead.notes) := by
  by_cases hc : lead.notes.isEmpty <;> simp [hc, create_lead_columns, getCol_append, getCol_optStrCol_ne, getCol_condCol_ne,
      getCol_optStrCol_self, getCol_condCol_self, getCol, col_first_name, col_last_name,
      col_company, col_position, col_linkedin, col_status, col_email, col_phone,
      col_source, col_conversation, col_notes, col_score, col_next_action,
      col_meeting_date, col_last_message]

lemma getCol_create_score (lead : Lead) :
    getCol (create_lead_columns lead) col_score =
      if lead.lead_score = 0 then none else some (ColVal.numberVal lead.lead_score) := by
  by_cases hc : lead.lead_score = 0 <;> simp [hc, create_lead_columns, getCol_append, getCol_optStrCol_ne, getCol_condCol_ne,
      getCol_optStrCol_self, getCol_condCol_self, getCol, col_first_name, col_last_name,
      col_company, col_position, col_linkedin, col_status, col_email, col_phone,
      col_source, col_conversation, col_notes, col_score, col_next_action,
      col_meeting_date, col_last_message]

lemma getCol_create_next_action (lead : Lead) :
    getCol (create_lead_columns lead) col_next_action =
      match lead.next_action_date with
      | some s => if s.isEmpty then none else some (ColVal.dateVal s)
      | none => none := by
  rcases hf : lead.next_action_date with _ | s
  · simp [hf, create_lead_columns, getCol_append, getCol_optStrCol_ne, getCol_condCol_ne,
      getCol_optStrCol_self, getCol_condCol_self, getCol, col_first_name, col_last_name,
      col_company, col_position, col_linkedin, col_status, col_email, col_phone,
      col_source, col_conversation, col_notes, col_score, col_next_action,
      col_meeting_date, col_last_message]
  · by_cases hfe : s.isEmpty <;> simp [hf, hfe, create_lead_columns, getCol_append, getCol_optStrCol_ne, getCol_condCol_ne,
      getCol_optStrCol_self, getCol_condCol_self, getCol, col_first_name, col_last_name,
      col_company, col_position, col_linkedin, col_status, col_email, col_phone,
      col_source, col_conversation, col_notes, col_score, col_next_action,
      col_meeting_date, col_last_message]

lemma getCol_create_meeting_date (lead : Lead) :
    getCol (create_lead_columns lead) col_meeting_date =
      match lead.meeting_date with
      | some s => if s.isEmpty then none else some (ColVal.dateVal s)
      | none => none := by
  rcases hf : lead.meeting_date with _ | s
  · simp [hf, create_lead_columns, getCol_append, getCol_optStrCol_ne, getCol_condCol_ne,
      getCol_optStrCol_self, getCol_condCol_self, getCol, col_first_name, col_last_name,
      col_company, col_position, col_linkedin, col_status, col_email, col_phone,
      col_source, col_conversation, col_notes, col_score, col_next_action,
      col_meeting_date, col_last_message]
  · by_cases hfe : s.isEmpty <;> simp [hf, hfe, create_lead_columns, getCol_append, getCol_optStrCol_ne, getCol_condCol_ne,
      getCol_optStrCol_self, getCol_condCol_self, getCol, col_first_name, col_last_name,
      col_company, col_position, col_linkedin, col_status, col_email, col_phone,
      col_source, col_conversation, col_notes, col_score, col_next_action,
      col_meeting_date, col_last_message]

lemma getCol_create_last_message (lead : Lead) :
    getCol (create_lead_columns lead) col_last_message = none := by
  rcases h1 : lead.email with _ | e <;> rcases h2 : lead.phone with _ | p <;>
    rcases h3 : lead.source with _ | so <;>
    rcases h4 : lead.next_action_date with _ | na <;>
    rcases h5 : lead.meeting_date with _ | md <;>
    simp [h1, h2, h3, h4, h5, create_lead_columns, getCol_append, getCol_optStrCol_ne, getCol_condCol_ne,
      getCol_optStrCol_self, getCol_condCol_self, getCol, col_first_name, col_last_name,
      col_company, col_position, col_linkedin, col_status, col_email, col_phone,
      col_source, col_conversation, col_notes, col_score, col_next_action,
      col_meeting_date, col_last_message]

/-! ## Helper lemmas: decimal round trip -/

lemma parseDigitsGo_append (a b : List Char) (acc : Nat) :
    parseDigitsGo (a ++ b) acc =
      match parseDigitsGo a acc with
      | some acc' => parseDigitsGo b acc'
      | none => none := by
  induction a generalizing acc with
  | nil => rfl
  | cons c t ih =>
    show parseDigitsGo (c :: (t ++ b)) acc = _
    rw [show ∀ l acc', parseDigitsGo (c :: l) acc' =
      if '0' ≤ c && c ≤ '9' then parseDigitsGo l (acc' * 10 + (c.toNat - 48))
      else none from fun _ _ => rfl]
    rw [show parseDigitsGo (c :: t) acc =
      if '0' ≤ c && c ≤ '9' then parseDigitsGo t (acc * 10 + (c.toNat - 48))
      else none from rfl]
    by_cases hc : ('0' ≤ c && c ≤ '9') = true
    · rw [if_pos hc, if_pos hc]
      exact ih _
    · rw [if_neg hc, if_neg hc]

lemma parseDigitsGo_digitChar (d acc : Nat) (hd : d < 10) :
    parseDigitsGo [Char.ofNat (48 + d)] acc = some (acc * 10 + d) := by
  have hcond : ('0' ≤ Char.ofNat (48 + d) && Char.ofNat (48 + d) ≤ '9') = true := by
    interval_cases d <;> decide
  have hval : (Char.ofNat (48 + d)).toNat - 48 = d := by
    interval_cases d <;> decide
  show (if '0' ≤ Char.ofNat (48 + d) && Char.ofNat (48 + d) ≤ '9' then
      parseDigitsGo [] (acc * 10 + ((Char.ofNat (48 + d)).toNat - 48))
    else none) = _
  rw [if_pos hcond, hval]
  rfl

lemma natDigitsLE_ne_nil (n : Nat) (hn : n ≠ 0) : natDigitsLE n ≠ [] := by
  rw [natDigitsLE, dif_neg hn]
  simp

lemma parseDigitsGo_natDigitsLE_reverse (n : Nat) :
    ∀ acc, parseDigitsGo (natDigitsLE n).reverse acc =
      some (acc * 10 ^ (natDigitsLE n).length + n) := by
  induction n using Nat.strong_induction_on with
  | _ n ih =>
    intro acc
    by_cases hn : n = 0
    · subst hn
      rw [show natDigitsLE 0 = [] from by rw [natDigitsLE]; rfl]
      simp [parseDigitsGo]
    · rw [natDigitsLE, dif_neg hn]
      rw [List.reverse_cons]
      rw [parseDigitsGo_append]
      rw [ih (n / 10) (Nat.div_lt_self (Nat.pos_of_ne_zero hn) (by norm_num)) acc]
      rw [show (match some (acc * 10 ^ (natDigitsLE (n / 10)).length + n / 10) with
        | some acc' => parseDigitsGo [Char.ofNat (48 + n % 10)] acc'
        | none => none) = parseDigitsGo [Char.ofNat (48 + n % 10)]
          (acc * 10 ^ (natDigitsLE (n / 10)).length + n / 10) from rfl]
      rw [parseDigitsGo_digitChar (n % 10) _ (Nat.mod_lt n (by norm_num))]
      have hlen : (Char.ofNat (48 + n % 10) :: natDigitsLE (n / 10)).length =
          (natDigitsLE (n / 10)).length + 1 := by simp
      rw [hlen]
      have hmod := Nat.div_add_mod n 10
      rw [pow_succ]
      congr 1
      have : acc * (10 ^ (natDigitsLE (n / 10)).length * 10) =
          acc * 10 ^ (natDigitsLE (n / 10)).length * 10 := by ring
      rw [this]
      omega

lemma parseDigitsGo_natRepr (n : Nat) : parseDigitsGo (natRepr n) 0 = some n := by
  by_cases hn : n = 0
  · subst hn
    decide
  · rw [natRepr, if_neg hn]
    rw [parseDigitsGo_natDigitsLE_reverse n 0]
    simp

lemma natRepr_ne_nil (n : Nat) : natRepr n ≠ [] := by
  by_cases hn : n = 0
  · subst hn
    decide
  · rw [natRepr, if_neg hn]
    simpa using natDigitsLE_ne_nil n hn

lemma mem_natDigitsLE_digit (n : Nat) :
    ∀ c ∈ natDigitsLE n, ∃ d, d < 10 ∧ c = Char.ofNat (48 + d) := by
  induction n using Nat.strong_induction_on with
  | _ n ih =>
    intro c hc
    by_cases hn : n = 0
    · subst hn
      rw [natDigitsLE] at hc
      simp at hc
    · rw [natDigitsLE, dif_neg hn] at hc
      rcases List.mem_cons.mp hc with h | h
      · exact ⟨n % 10, Nat.mod_lt n (by norm_num), h⟩
      · exact ih (n / 10) (Nat.div_lt_self (Nat.pos_of_ne_zero hn) (by norm_num)) c h

lemma natRepr_head_digit (n : Nat) (c : Char) (t : List Char)
    (h : natRepr n = c :: t) : ∃ d, d < 10 ∧ c = Char.ofNat (48 + d) := by
  by_cases hn : n = 0
  · subst hn
    rw [show natRepr 0 = ['0'] from rfl] at h
    rw [List.cons.injEq] at h
    exact ⟨0, by norm_num, by rw [← h.1]⟩
  · rw [natRepr, if_neg hn] at h
    have hc : c ∈ (natDigitsLE n).reverse := by
      rw [h]
      simp
    rw [List.mem_reverse] at hc
    exact mem_natDigitsLE_digit n c hc

lemma floatRound53_eq_self (n : Nat) (h : n < 2 ^ 53) : floatRound53 n = n := by
  unfold floatRound53
  rw [if_pos h]

lemma floatRound53_prec : floatRound53 9007199254740993 = 9007199254740992 := by
  have hlog : Nat.log2 9007199254740993 = 53 := by
    rw [Nat.log2_eq_log_two]
    exact Nat.log_eq_of_pow_le_of_lt_pow (by norm_num) (by norm_num)
  unfold floatRound53
  rw [if_neg (by norm_num), hlog]
  norm_num

lemma pyParseNumber_natRepr (n : Nat) :
    pyParseNumber (natRepr n) = (floatRound53 n : Int) := by
  rcases hr : natRepr n with _ | ⟨c, t⟩
  · exact absurd hr (natRepr_ne_nil n)
  · obtain ⟨d, hd, hc⟩ := natRepr_head_digit n c t hr
    have hcm : ¬c = '-' := by
      subst hc
      interval_cases d <;> decide
    show (match c :: t with
      | [] => (0 : Int)
      | c :: t =>
        if c = '-' then
          match parseDigitsGo t 0 with
          | some k => -(floatRound53 k : Int)
          | none => 0
        else
          match parseDigitsGo (c :: t) 0 with
          | some k => (floatRound53 k : Int)
          | none => 0) = (floatRound53 n : Int)
    simp only [if_neg hcm]
    rw [← hr, parseDigitsGo_natRepr n]

lemma pyParseNumber_intRepr (z : Int) (hz : z.natAbs < 2 ^ 53) :
    pyParseNumber (intRepr z) = z := by
  rcases z with n | m
  · show pyParseNumber (natRepr n) = (n : Int)
    rw [pyParseNumber_natRepr n, floatRound53_eq_self n (by simpa using hz)]
  · show pyParseNumber ('-' :: natRepr (m + 1)) = Int.negSucc m
    show (if ('-' : Char) = '-' then
        match parseDigitsGo (natRepr (m + 1)) 0 with
        | some k => -(floatRound53 k : Int)
        | none => (0 : Int)
      else
        match parseDigitsGo ('-' :: natRepr (m + 1)) 0 with
        | some k => (floatRound53 k : Int)
        | none => 0) = Int.negSucc m
    rw [if_pos rfl, parseDigitsGo_natRepr (m + 1)]
    show -(floatRound53 (m + 1) : Int) = Int.negSucc m
    rw [floatRound53_eq_self (m + 1) (by simpa using hz)]
    show -((m : Int) + 1) = Int.negSucc m
    rw [Int.negSucc_eq]

/-! ## Theorems for the claims -/

/-- C4: for every content string and message type, `_validate_message`
reports `is_valid = true` exactly when its error list is empty; it is a
total function, so it yields a verdict on every input. -/
theorem valid_iff_no_errors (content : List Char) (message_type : MessageType) :
    (validate_message content message_type).1 = true ↔
      (validate_message content message_type).2 = [] := by
  unfold validate_message
  simp [List.length_eq_zero]

/-- C3: the word-count rule of `_validate_message` never fires when the
whitespace-split word count is at most `30`, never fires in the buffer
`(30, 35]`, and always fires above `35`. -/
theorem word_count_rule_boundaries (content : List Char) (mt : MessageType) :
    (pyWordCount content ≤ 30 →
      ∀ n, VError.wordCountTooHigh n ∉ (validate_message content mt).2)
    ∧ (30 < pyWordCount content ∧ pyWordCount content ≤ 35 →
      ∀ n, VError.wordCountTooHigh n ∉ (validate_message content mt).2)
    ∧ (35 < pyWordCount content →
      VError.wordCountTooHigh (pyWordCount content) ∈ (validate_message content mt).2) := by
  refine ⟨?_, ?_, ?_⟩
  · intro h n hmem
    rw [mem_wordCount_validate] at hmem
    omega
  · intro h n hmem
    rw [mem_wordCount_validate] at hmem
    omega
  · intro h
    exact (mem_wordCount_validate content mt _).2 ⟨h, rfl⟩

/-- Witness for C3 at concrete inputs: a 30-word draft and a 33-word
draft do not trigger the word-count rule, a 36-word draft does. -/
theorem word_count_rule_boundaries_witness :
    (∀ n, VError.wordCountTooHigh n ∉
      (validate_message (("a a a a a a a a a a a a a a a a a a a a a a a a a a a a a a").data)
        MessageType.reply).2)
    ∧ (∀ n, VError.wordCountTooHigh n ∉
      (validate_message (("a a a a a a a a a a a a a a a a a a a a a a a a a a a a a a a a a").data)
        MessageType.reply).2)
    ∧ VError.wordCountTooHigh
        (pyWordCount (("a a a a a a a a a a a a a a a a a a a a a a a a a a a a a a a a a a a a").data)) ∈
      (validate_message (("a a a a a a a a a a a a a a a a a a a a a a a a a a a a a a a a a a a a").data)
        MessageType.reply).2 :=
  ⟨(word_count_rule_boundaries _ MessageType.reply).1 (by decide),
   (word_count_rule_boundaries _ MessageType.reply).2.1 (by decide),
   (word_count_rule_boundaries _ MessageType.reply).2.2 (by decide)⟩

/-- C1: with an always-succeeding generative service and
`max_attempts ≥ 1`, `regenerate_if_invalid` calls `generate_message` up
to `max_attempts` times and returns at the first valid draft, having
made exactly that attempt's number of calls; when no attempt is valid
it makes exactly `max_attempts` calls and returns the draft with the
strictly fewest validation errors, the earliest among ties. -/
theorem regen_first_valid_or_best (svc : Nat → List Char) (mt : MessageType)
    (max_attempts : Nat) (hN : 1 ≤ max_attempts) :
    (∃ i, i < max_attempts ∧
      (mkGeneratedMessage (svc i) mt).is_valid = true ∧
      (∀ k, k < i → (mkGeneratedMessage (svc k) mt).is_valid = false) ∧
      regenerate_if_invalid (fun x => Except.ok (svc x)) mt max_attempts =
        (Except.ok (some (mkGeneratedMessage (svc i) mt)), i + 1))
    ∨ ((∀ i, i < max_attempts → (mkGeneratedMessage (svc i) mt).is_valid = false) ∧
      ∃ j, j < max_attempts ∧
        regenerate_if_invalid (fun x => Except.ok (svc x)) mt max_attempts =
          (Except.ok (some (mkGeneratedMessage (svc j) mt)), max_attempts) ∧
        (∀ k, k < max_attempts →
          (mkGeneratedMessage (svc j) mt).validation_errors.length ≤
            (mkGeneratedMessage (svc k) mt).validation_errors.length) ∧
        (∀ k, k < j →
          (mkGeneratedMessage (svc j) mt).validation_errors.length <
            (mkGeneratedMessage (svc k) mt).validation_errors.length)) := by
  classical
  have hres : regenerate_if_invalid (fun x => Except.ok (svc x)) mt max_attempts =
      regenLoop (fun i => Except.ok (mkGeneratedMessage (svc i) mt))
        max_attempts 0 none := rfl
  by_cases hex : ∃ i, i < max_attempts ∧ (mkGeneratedMessage (svc i) mt).is_valid = true
  · left
    obtain ⟨hfound, hvalid⟩ := Nat.find_spec hex
    refine ⟨Nat.find hex, hfound, hvalid, ?_, ?_⟩
    · intro k hk
      have hnot := Nat.find_min hex hk
      rcases Bool.eq_false_or_eq_true (mkGeneratedMessage (svc k) mt).is_valid with h | h
      · exact absurd ⟨by omega, h⟩ hnot
      · exact h
    · rw [hres]
      rw [regenLoop_ok_skip (fun i => mkGeneratedMessage (svc i) mt) (Nat.find hex)
        max_attempts 0 none (by omega) ?hprev]
      case hprev =>
        intro k hk
        have hnot := Nat.find_min hex hk
        rcases Bool.eq_false_or_eq_true (mkGeneratedMessage (svc (0 + k)) mt).is_valid
          with h | h
        · rw [Nat.zero_add] at h
          exact absurd ⟨by omega, h⟩ hnot
        · exact h
      obtain ⟨M, hM⟩ : ∃ M, max_attempts - Nat.find hex = M + 1 :=
        ⟨max_attempts - Nat.find hex - 1, by omega⟩
      rw [hM, Nat.zero_add]
      rw [regenLoop_step_valid _ _ _ _ _ rfl hvalid]
      rw [Nat.add_comm]
  · right
    have hinv : ∀ i, i < max_attempts →
        (mkGeneratedMessage (svc i) mt).is_valid = false := by
      intro i hi
      rcases Bool.eq_false_or_eq_true (mkGeneratedMessage (svc i) mt).is_valid with h | h
      · exact absurd ⟨i, hi, h⟩ hex
      · exact h
    refine ⟨hinv, ?_⟩
    have hargs := foldUpd_argmin (fun i => mkGeneratedMessage (svc i) mt)
      max_attempts 0 none (Or.inl ⟨rfl, rfl⟩)
    rcases hargs with ⟨h0, _⟩ | ⟨j, hj, hfold, hmin, hstrict⟩
    · omega
    · refine ⟨j, by simpa using hj, ?_, fun k hk => hmin k (by simpa using hk), hstrict⟩
      rw [hres]
      rw [regenLoop_ok_skip (fun i => mkGeneratedMessage (svc i) mt) max_attempts
        max_attempts 0 none le_rfl (fun k hk => by simpa using hinv k (by omega))]
      rw [Nat.sub_self]
      rw [show regenLoop (fun i => Except.ok (mkGeneratedMessage (svc i) mt)) 0
        (0 + max_attempts)
        (foldUpd (fun i => mkGeneratedMessage (svc i) mt) max_attempts 0 none) =
        (Except.ok (foldUpd (fun i => mkGeneratedMessage (svc i) mt)
          max_attempts 0 none), 0) from rfl]
      rw [hfold]
      rw [Nat.zero_add]

/-- Witness for C1: a script whose first draft is invalid and second is
valid, with `max_attempts = 2`. -/
theorem regen_first_valid_or_best_witness :
    (∃ i, i < 2 ∧
      (mkGeneratedMessage (witSvcC1 i) MessageType.reply).is_valid = true ∧
      (∀ k, k < i →
        (mkGeneratedMessage (witSvcC1 k) MessageType.reply).is_valid = false) ∧
      regenerate_if_invalid (fun x => Except.ok (witSvcC1 x)) MessageType.reply 2 =
        (Except.ok (some (mkGeneratedMessage (witSvcC1 i) MessageType.reply)), i + 1))
    ∨ ((∀ i, i < 2 →
        (mkGeneratedMessage (witSvcC1 i) MessageType.reply).is_valid = false) ∧
      ∃ j, j < 2 ∧
        regenerate_if_invalid (fun x => Except.ok (witSvcC1 x)) MessageType.reply 2 =
          (Except.ok (some (mkGeneratedMessage (witSvcC1 j) MessageType.reply)), 2) ∧
        (∀ k, k < 2 →
          (mkGeneratedMessage (witSvcC1 j) MessageType.reply).validation_errors.length ≤
            (mkGeneratedMessage (witSvcC1 k) MessageType.reply).validation_errors.length) ∧
        (∀ k, k < j →
          (mkGeneratedMessage (witSvcC1 j) MessageType.reply).validation_errors.length <
            (mkGeneratedMessage (witSvcC1 k) MessageType.reply).validation_errors.length)) :=
  regen_first_valid_or_best witSvcC1 MessageType.reply 2 (by omega)

/-- C2 (counterexample): with `max_attempts = 2` and a service script
whose first call succeeds with an invalid draft and whose second call
raises a transport error, `regenerate_if_invalid` propagates the
service error after `2` calls — although `max_attempts` is not `0` and
the service did not fail on every attempt (the first call succeeded),
so the claim's two exhaustive failure cases do not cover this raise and
its promise to otherwise return a draft is broken. -/
theorem regen_raises_midway_cex :
    regenerate_if_invalid cexSvcC2 MessageType.first_outreach 2 =
      (Except.error SvcErr.transport, 2)
    ∧ cexSvcC2 0 = Except.ok ("hi - there".data)
    ∧ (mkGeneratedMessage ("hi - there".data) MessageType.first_outreach).is_valid
        = false := by
  refine ⟨rfl, rfl, by decide⟩

/-- C2 (amended): `regenerate_if_invalid` returns the Python `None`
(and raises nothing) exactly when `max_attempts` is `0`; it propagates
the generative service's own error exactly when some attempt's service
call fails after every earlier attempt returned an invalid draft (so a
single mid-loop service failure already aborts the retry loop); in
every remaining case it returns a draft.  No `GenerationExhausted`
error exists in the code. -/
theorem regen_failure_trichotomy (svc : Nat → Except SvcErr (List Char))
    (message_type : MessageType) (max_attempts : Nat) :
    ((regenerate_if_invalid svc message_type max_attempts).1 = Except.ok none ↔
      max_attempts = 0)
    ∧ (∀ e, (regenerate_if_invalid svc message_type max_attempts).1 =
          Except.error e ↔
        ∃ i, i < max_attempts ∧ svc i = Except.error e ∧
          ∀ k, k < i → ∃ raw, svc k = Except.ok raw ∧
            (mkGeneratedMessage raw message_type).is_valid = false)
    ∧ ((max_attempts ≠ 0 ∧
          ∀ e, (regenerate_if_invalid svc message_type max_attempts).1 ≠
            Except.error e) →
        ∃ m, (regenerate_if_invalid svc message_type max_attempts).1 =
          Except.ok (some m)) := by
  have hres : regenerate_if_invalid svc message_type max_attempts =
      regenLoop (fun i => generate_message (svc i) message_type) max_attempts 0 none :=
    rfl
  refine ⟨?_, ?_, ?_⟩
  · rw [hres]
    exact regenLoop_ok_none_iff _ max_attempts
  · intro e
    rw [hres, regenLoop_error_iff]
    constructor
    · rintro ⟨t, ht, hterr, hprev⟩
      rw [Nat.zero_add] at hterr
      refine ⟨t, ht, ?_, ?_⟩
      · have hge : generate_message (svc t) message_type = Except.error e := hterr
        rcases hsv : svc t with e' | raw
        · rw [hsv] at hge
          simp only [generate_message] at hge
          have he : e' = e := by simpa using hge
          rw [he]
        · rw [hsv] at hge
          simp only [generate_message] at hge
          exact absurd hge (by simp)
      · intro k hk
        obtain ⟨m, hm, hinv⟩ := hprev k hk
        rw [Nat.zero_add] at hm
        have hgm : generate_message (svc k) message_type = Except.ok m := hm
        rcases hsv : svc k with e' | raw
        · rw [hsv] at hgm
          simp only [generate_message] at hgm
          exact absurd hgm (by simp)
        · rw [hsv] at hgm
          simp only [generate_message, Except.ok.injEq] at hgm
          exact ⟨raw, rfl, by rw [hgm]; exact hinv⟩
    · rintro ⟨i, hi, hierr, hprev⟩
      refine ⟨i, hi, ?_, ?_⟩
      · rw [Nat.zero_add]
        show generate_message (svc i) message_type = Except.error e
        rw [hierr]
        rfl
      · intro k hk
        obtain ⟨raw, hraw, hinv⟩ := hprev k hk
        refine ⟨mkGeneratedMessage raw message_type, ?_, hinv⟩
        rw [Nat.zero_add]
        show generate_message (svc k) message_type = _
        rw [hraw]
        rfl
  · rintro ⟨hne, herr⟩
    rcases hv : (regenerate_if_invalid svc message_type max_attempts).1 with e | o
    · exact absurd hv (herr e)
    · rcases o with _ | m
      · rw [hres] at hv
        rw [regenLoop_ok_none_iff] at hv
        exact absurd hv hne
      · exact ⟨m, rfl⟩

/-- Witness for C2 (amended) on an always-valid one-attempt script. -/
theorem regen_failure_trichotomy_witness :
    ∃ m, (regenerate_if_invalid witSvcC2 MessageType.reply 1).1 =
      Except.ok (some m) :=
  (regen_failure_trichotomy witSvcC2 MessageType.reply 1).2.2
    ⟨by decide, by
      intro e h
      rw [show (regenerate_if_invalid witSvcC2 MessageType.reply 1).1 =
        Except.ok (some (mkGeneratedMessage ("hello friend".data) MessageType.reply))
        from rfl] at h
      exact Except.noConfusion h⟩

/-- C10: `get_agent_output` maps a reported status to `RUNNING` only for
exactly `"running"` and to `ERROR` only for exactly `"error"`; every
other report, including `"launching"` and a missing status, becomes
`FINISHED`, so `LAUNCHING` is never produced and `wait_for_agent`
returns on its first poll of a job whose service status is
`"launching"`. -/
theorem agent_status_mapping (raw : Option (List Char))
    (svc : Nat → RawOutputResp) (timeout_seconds poll_interval fuel : Nat)
    (hfuel : 1 ≤ fuel) (hlaunch : (svc 0).statusField = some ("launching".data)) :
    (map_agent_status raw = AgentStatus.running ↔ raw = some ("running".data))
    ∧ (map_agent_status raw = AgentStatus.error ↔ raw = some ("error".data))
    ∧ map_agent_status raw ≠ AgentStatus.launching
    ∧ map_agent_status (some ("launching".data)) = AgentStatus.finished
    ∧ wait_for_agent svc timeout_seconds poll_interval fuel =
        some (Except.ok (get_agent_output (svc 0), 1, 0)) := by
  refine ⟨?_, ?_, ?_, by decide, ?_⟩
  · unfold map_agent_status
    split_ifs with h1 h2 <;> simp_all
  · unfold map_agent_status
    split_ifs with h1 h2 <;> simp_all
  · unfold map_agent_status
    split_ifs <;> simp
  · obtain ⟨f, rfl⟩ : ∃ f, fuel = f + 1 := ⟨fuel - 1, by omega⟩
    have hst : (get_agent_output (svc 0)).status = AgentStatus.finished := by
      show map_agent_status (svc 0).statusField = AgentStatus.finished
      rw [hlaunch]
      decide
    show waitLoop svc timeout_seconds poll_interval (f + 1) 0 = _
    rw [waitLoop_step_return _ _ _ _ _ (by rw [hst]; decide)]

/-- C5: when the job service reports `"running"` on the first two polls
and `"finished"` on the third, and the poll interval fits inside the
timeout, `wait_for_agent` returns the finished output after exactly `3`
polls with `2` sleeps of `poll_interval` between consecutive polls (the
injected clock advances only inside `asyncio.sleep`). -/
theorem wait_three_polls (svc : Nat → RawOutputResp)
    (timeout_seconds poll_interval fuel : Nat)
    (h0 : (svc 0).statusField = some ("running".data))
    (h1 : (svc 1).statusField = some ("running".data))
    (h2 : (svc 2).statusField = some ("finished".data))
    (hpt : poll_interval ≤ timeout_seconds) (hfuel : 3 ≤ fuel) :
    wait_for_agent svc timeout_seconds poll_interval fuel =
      some (Except.ok (get_agent_output (svc 2), 3, 2))
    ∧ (get_agent_output (svc 2)).status = AgentStatus.finished := by
  obtain ⟨f, rfl⟩ : ∃ f, fuel = f + 3 := ⟨fuel - 3, by omega⟩
  have hs0 : (get_agent_output (svc 0)).status = AgentStatus.running := by
    show map_agent_status (svc 0).statusField = AgentStatus.running
    rw [h0]
    decide
  have hs1 : (get_agent_output (svc 1)).status = AgentStatus.running := by
    show map_agent_status (svc 1).statusField = AgentStatus.running
    rw [h1]
    decide
  have hs2 : (get_agent_output (svc 2)).status = AgentStatus.finished := by
    show map_agent_status (svc 2).statusField = AgentStatus.finished
    rw [h2]
    decide
  refine ⟨?_, hs2⟩
  show waitLoop svc timeout_seconds poll_interval (f + 2 + 1) 0 = _
  rw [waitLoop_step_continue _ _ _ _ _ hs0 (by simp)]
  rw [waitLoop_step_continue _ _ _ _ _ hs1 (by omega)]
  rw [waitLoop_step_return _ _ _ _ _ (by simp [hs2])]

/-- Witness for C5 at a concrete script, timeout `300`, interval `10`. -/
theorem wait_three_polls_witness :
    wait_for_agent
        (fun n => if n < 2 then { statusField := some ("running".data) }
                  else { statusField := some ("finished".data) }) 300 10 9 =
      some (Except.ok
        (get_agent_output ({ statusField := some ("finished".data) } : RawOutputResp), 3, 2)) :=
  (wait_three_polls
      (fun n => if n < 2 then { statusField := some ("running".data) }
                else { statusField := some ("finished".data) })
      300 10 9 rfl rfl rfl (by omega) (by omega)).1

/-- C6: when every poll within the timeout reports `"running"`,
`wait_for_agent` raises `TimeoutError` at the first poll whose elapsed
time (sleeps so far times `poll_interval`) exceeds the timeout, instead
of returning an output: the raise happens after `timeout / interval + 1`
sleeps, whose elapsed time indeed exceeds the timeout. -/
theorem wait_timeout_raises (svc : Nat → RawOutputResp)
    (timeout_seconds poll_interval fuel : Nat)
    (hrun : ∀ n, (svc n).statusField = some ("running".data))
    (hpI : 1 ≤ poll_interval)
    (hfuel : timeout_seconds / poll_interval + 2 ≤ fuel) :
    wait_for_agent svc timeout_seconds poll_interval fuel =
      some (Except.error (timeout_seconds / poll_interval + 1))
    ∧ (timeout_seconds / poll_interval + 1) * poll_interval > timeout_seconds := by
  have hr : ∀ n, (get_agent_output (svc n)).status = AgentStatus.running := by
    intro n
    show map_agent_status (svc n).statusField = AgentStatus.running
    rw [hrun n]
    decide
  constructor
  · exact waitLoop_always_running_times_out svc _ _ hr hpI fuel 0
      (by simpa using hfuel) (Nat.zero_le _)
  · have := Nat.lt_div_mul_add (a := timeout_seconds) (b := poll_interval) (by omega)
    calc timeout_seconds < timeout_seconds / poll_interval * poll_interval + poll_interval := this
    _ = (timeout_seconds / poll_interval + 1) * poll_interval := by ring

/-- Witness for C6: an always-running script, timeout `25`, interval
`10`: the loop raises after `3` sleeps (elapsed `30 > 25`). -/
theorem wait_timeout_raises_witness :
    wait_for_agent (fun _ => { statusField := some ("running".data) }) 25 10 9 =
      some (Except.error 3) ∧ (3 : Nat) * 10 > 25 := by
  have h := wait_timeout_raises (fun _ => { statusField := some ("running".data) })
    25 10 9 (fun _ => rfl) (by omega) (by omega)
  exact ⟨h.1, by omega⟩

/-- C8 (counterexample): the claimed round-trip fails twice.  A lead
supplied with a populated `last_message_date` does not round-trip:
`create_lead` never writes the last-message column, so `get_lead_by_id`
on the created item returns an empty last-message date instead of the
supplied `"2025-01-01"`.  And a lead score of `2 ^ 53 + 1` comes back
as `2 ^ 53`: `_parse_number` goes through `int(float(value))`, which
rounds integer text above `2 ^ 53` (ties to even). -/
theorem roundtrip_last_message_cex :
    (create_then_get
      { first_name := "Yossi".data, last_name := "Cohen".data,
        company := "Acme".data, position := "HR".data,
        linkedin_url := "https://x".data,
        last_message_date := some ("2025-01-01".data) } ("item9".data)).last_message_date
      = some []
    ∧ (some [] : Option (List Char)) ≠ some ("2025-01-01".data)
    ∧ (create_then_get
      { first_name := "A".data, last_name := "B".data,
        company := "C".data, position := "P".data,
        linkedin_url := "L".data,
        lead_score := 9007199254740993 } ("item1".data)).lead_score
      = 9007199254740992 := by
  refine ⟨rfl, by decide, ?_⟩
  show pyParseNumber (colText (create_lead_columns
    { first_name := "A".data, last_name := "B".data,
      company := "C".data, position := "P".data,
      linkedin_url := "L".data,
      lead_score := 9007199254740993 }) col_score) = 9007199254740992
  unfold colText
  rw [getCol_create_score]
  rw [if_neg (by norm_num)]
  show pyParseNumber (intRepr (9007199254740993 : Int)) = 9007199254740992
  rw [show intRepr (9007199254740993 : Int) = natRepr 9007199254740993 from rfl]
  rw [pyParseNumber_natRepr 9007199254740993, floatRound53_prec]
  norm_num

set_option maxHeartbeats 1000000 in
/-- C8 (amended): against a CRM that stores and echoes back the written
column values, `create_lead` followed by `get_lead_by_id` returns the
supplied names, company, position, linkedin URL, status, conversation
log and notes unconditionally, each populated optional field (email,
phone, source, next-action date, meeting date), and the lead score
whenever its magnitude is below `2 ^ 53` (the score re-enters through
`int(float(...))`, so larger scores lose precision); the
server-assigned item id is attached; but the last-message date comes
back empty regardless of the supplied value, because `create_lead`
never writes that column. -/
theorem create_get_roundtrip (lead : Lead) (new_id : List Char) :
    (create_then_get lead new_id).first_name = lead.first_name
    ∧ (create_then_get lead new_id).last_name = lead.last_name
    ∧ (create_then_get lead new_id).company = lead.company
    ∧ (create_then_get lead new_id).position = lead.position
    ∧ (create_then_get lead new_id).linkedin_url = lead.linkedin_url
    ∧ (create_then_get lead new_id).status = lead.status
    ∧ (∀ e, lead.email = some e → e ≠ [] →
        (create_then_get lead new_id).email = some e)
    ∧ (∀ p, lead.phone = some p → p ≠ [] →
        (create_then_get lead new_id).phone = some p)
    ∧ (∀ s, lead.source = some s → s ≠ [] →
        (create_then_get lead new_id).source = some s)
    ∧ (∀ d, lead.next_action_date = some d → d ≠ [] →
        (create_then_get lead new_id).next_action_date = some d)
    ∧ (∀ d, lead.meeting_date = some d → d ≠ [] →
        (create_then_get lead new_id).meeting_date = some d)
    ∧ (create_then_get lead new_id).conversation_log = lead.conversation_log
    ∧ (create_then_get lead new_id).notes = lead.notes
    ∧ (lead.lead_score.natAbs < 2 ^ 53 →
        (create_then_get lead new_id).lead_score = lead.lead_score)
    ∧ (create_then_get lead new_id).item_id = some new_id
    ∧ (create_then_get lead new_id).last_message_date = some [] := by
  have hfn : colText (create_lead_columns lead) col_first_name = lead.first_name := by
    unfold colText
    rw [getCol_create_first_name]
    rfl
  have hln : colText (create_lead_columns lead) col_last_name = lead.last_name := by
    unfold colText
    rw [getCol_create_last_name]
    rfl
  have hcond : (lead.first_name.isEmpty && lead.last_name.isEmpty &&
      !(lead_item_name lead).isEmpty) = false := by
    by_cases h1 : lead.first_name.isEmpty
    · by_cases h2 : lead.last_name.isEmpty
      · have hnm : lead_item_name lead = [] := by
          unfold lead_item_name
          rw [List.isEmpty_iff.mp h1, List.isEmpty_iff.mp h2]
          decide
        simp [h1, h2, hnm]
      · simp [h2]
    · simp [h1]
  refine ⟨?_, ?_, ?_, ?_, ?_, ?_, ?_, ?_, ?_, ?_, ?_, ?_, ?_, ?_, rfl, ?_⟩
  · show (parse_names (colText (create_lead_columns lead) col_first_name)
      (colText (create_lead_columns lead) col_last_name) (lead_item_name lead)).1 =
        lead.first_name
    rw [hfn, hln]
    unfold parse_names
    rw [hcond]
    simp
  · show (parse_names (colText (create_lead_columns lead) col_first_name)
      (colText (create_lead_columns lead) col_last_name) (lead_item_name lead)).2 =
        lead.last_name
    rw [hfn, hln]
    unfold parse_names
    rw [hcond]
    simp
  · show colText (create_lead_columns lead) col_company = lead.company
    unfold colText
    rw [getCol_create_company]
    rfl
  · show colText (create_lead_columns lead) col_position = lead.position
    unfold colText
    rw [getCol_create_position]
    rfl
  · show extract_url (getCol (create_lead_columns lead) col_linkedin) =
      lead.linkedin_url
    rw [getCol_create_linkedin]
    rfl
  · show colText (create_lead_columns lead) col_status = lead.status
    unfold colText
    rw [getCol_create_status]
    rfl
  · intro e he hene
    have hee : e.isEmpty = false := by
      rcases e with _ | ⟨c, t⟩
      · exact absurd rfl hene
      · rfl
    show some (colText (create_lead_columns lead) col_email) = some e
    unfold colText
    rw [getCol_create_email, he]
    simp [hee, renderText]
  · intro p hp hpne
    have hpe : p.isEmpty = false := by
      rcases p with _ | ⟨c, t⟩
      · exact absurd rfl hpne
      · rfl
    show some (colText (create_lead_columns lead) col_phone) = some p
    unfold colText
    rw [getCol_create_phone, hp]
    simp [hpe, renderText]
  · intro s hs hsne
    have hse : s.isEmpty = false := by
      rcases s with _ | ⟨c, t⟩
      · exact absurd rfl hsne
      · rfl
    show some (colText (create_lead_columns lead) col_source) = some s
    unfold colText
    rw [getCol_create_source, hs]
    simp [hse, renderText]
  · intro d hd hdne
    have hde : d.isEmpty = false := by
      rcases d with _ | ⟨c, t⟩
      · exact absurd rfl hdne
      · rfl
    show some (colText (create_lead_columns lead) col_next_action) = some d
    unfold colText
    rw [getCol_create_next_action, hd]
    simp [hde, renderText]
  · intro d hd hdne
    have hde : d.isEmpty = false := by
      rcases d with _ | ⟨c, t⟩
      · exact absurd rfl hdne
      · rfl
    show some (colText (create_lead_columns lead) col_meeting_date) = some d
    unfold colText
    rw [getCol_create_meeting_date, hd]
    simp [hde, renderText]
  · show colText (create_lead_columns lead) col_conversation = lead.conversation_log
    unfold colText
    rw [getCol_create_conversation]
    by_cases hc : lead.conversation_log.isEmpty
    · rw [if_pos hc]
      exact (List.isEmpty_iff.mp hc).symm
    · rw [if_neg hc]
      rfl
  · show colText (create_lead_columns lead) col_notes = lead.notes
    unfold colText
    rw [getCol_create_notes]
    by_cases hc : lead.notes.isEmpty
    · rw [if_pos hc]
      exact (List.isEmpty_iff.mp hc).symm
    · rw [if_neg hc]
      rfl
  · intro hsc
    show pyParseNumber (colText (create_lead_columns lead) col_score) =
      lead.lead_score
    unfold colText
    rw [getCol_create_score]
    by_cases hs : lead.lead_score = 0
    · rw [if_pos hs, hs]
      show pyParseNumber [] = (0 : Int)
      rfl
    · rw [if_neg hs]
      show pyParseNumber (intRepr lead.lead_score) = lead.lead_score
      exact pyParseNumber_intRepr lead.lead_score hsc
  · show some (colText (create_lead_columns lead) col_last_message) =
      some ([] : List Char)
    unfold colText
    rw [getCol_create_last_message]

/-- Witness for C8 (amended) at a fully populated concrete lead,
exercising the populated-email and bounded-score conjuncts. -/
theorem create_get_roundtrip_witness :
    (create_then_get
      { first_name := "Yossi".data, last_name := "Cohen".data,
        company := "Acme".data, position := "HR".data,
        linkedin_url := "https://x".data, email := some ("y@x.il".data),
        phone := some ("050".data), source := some ("Referral".data),
        next_action_date := some ("2025-02-01".data),
        meeting_date := some ("2025-03-01".data),
        conversation_log := "hi".data, notes := "note".data,
        lead_score := 45 } ("item7".data)).email = some ("y@x.il".data)
    ∧ (create_then_get
      { first_name := "Yossi".data, last_name := "Cohen".data,
        company := "Acme".data, position := "HR".data,
        linkedin_url := "https://x".data, email := some ("y@x.il".data),
        phone := some ("050".data), source := some ("Referral".data),
        next_action_date := some ("2025-02-01".data),
        meeting_date := some ("2025-03-01".data),
        conversation_log := "hi".data, notes := "note".data,
        lead_score := 45 } ("item7".data)).lead_score = 45 :=
  ⟨((create_get_roundtrip
      { first_name := "Yossi".data, last_name := "Cohen".data,
        company := "Acme".data, position := "HR".data,
        linkedin_url := "https://x".data, email := some ("y@x.il".data),
        phone := some ("050".data), source := some ("Referral".data),
        next_action_date := some ("2025-02-01".data),
        meeting_date := some ("2025-03-01".data),
        conversation_log := "hi".data, notes := "note".data,
        lead_score := 45 } ("item7".data)).2.2.2.2.2.2.1) ("y@x.il".data) rfl
    (by decide),
   ((create_get_roundtrip
      { first_name := "Yossi".data, last_name := "Cohen".data,
        company := "Acme".data, position := "HR".data,
        linkedin_url := "https://x".data, email := some ("y@x.il".data),
        phone := some ("050".data), source := some ("Referral".data),
        next_action_date := some ("2025-02-01".data),
        meeting_date := some ("2025-03-01".data),
        conversation_log := "hi".data, notes := "note".data,
        lead_score := 45 } ("item7".data)).2.2.2.2.2.2.2.2.2.2.2.2.2.1)
    (by norm_num)⟩

/-- C7 (counterexample): appending `"hello"` twice to an empty
conversation log stores a value whose first entry is not preceded by a
blank line — the `.strip()` removes the leading blank line when the
prior log is empty, so the claim's "each preceded by a blank line" fails
at this input (the first timestamp never appears preceded by a blank
line in the stored text). -/
theorem append_blank_line_cex :
    append_log_twice [] ("2025-06-01 10:00".data) ("hello".data)
        ("2025-06-01 10:01".data) ("hello".data) =
      ("[2025-06-01 10:00]\nhello\n\n[2025-06-01 10:01]\nhello".data)
    ∧ strContains ('\n' :: '\n' :: '[' :: "2025-06-01 10:00".data)
        (append_log_twice [] ("2025-06-01 10:00".data) ("hello".data)
          ("2025-06-01 10:01".data) ("hello".data)) = false := by
  exact ⟨rfl, by decide⟩

/-- C7 (amended): for messages that are nonempty and carry no trailing
whitespace, two sequential `append_to_conversation_log` calls store
exactly the left-stripped prior log followed by the first timestamped
entry — preceded by a blank line exactly when the stripped prior log is
nonempty — and then the second timestamped entry, always preceded by a
blank line, in call (chronological) order; the trimmed prior log is
preserved as a prefix of the written value. -/
theorem append_twice_characterization (initial ts1 m1 ts2 m2 : List Char)
    (hm1 : m1 ≠ []) (hm1e : pyStripEnd m1 = m1)
    (hm2 : m2 ≠ []) (hm2e : pyStripEnd m2 = m2) :
    (append_log_twice initial ts1 m1 ts2 m2 =
      (if pyStripStart initial = [] then '[' :: (ts1 ++ ']' :: '\n' :: m1)
       else pyStripStart initial ++
         '\n' :: '\n' :: '[' :: (ts1 ++ ']' :: '\n' :: m1))
      ++ '\n' :: '\n' :: '[' :: (ts2 ++ ']' :: '\n' :: m2))
    ∧ ∃ rest, append_log_twice initial ts1 m1 ts2 m2 = pyStrip initial ++ rest := by
  have hA1c := append_log_text_char initial ts1 m1 hm1 hm1e
  have hshape : ∃ c t, append_log_text initial ts1 m1 = c :: t ∧
      isPySpace c = false := by
    by_cases hL : pyStripStart initial = []
    · exact ⟨'[', ts1 ++ ']' :: '\n' :: m1, by rw [hA1c, if_pos hL], by decide⟩
    · rcases hc : pyStripStart initial with _ | ⟨c, t⟩
      · exact absurd hc hL
      · refine ⟨c, t ++ '\n' :: '\n' :: '[' :: (ts1 ++ ']' :: '\n' :: m1), ?_,
          pyStripStart_head_cons initial c t hc⟩
        rw [hA1c, if_neg hL, hc]
        simp
  have hsecond : append_log_twice initial ts1 m1 ts2 m2 =
      append_log_text initial ts1 m1 ++
        '\n' :: '\n' :: '[' :: (ts2 ++ ']' :: '\n' :: m2) := by
    obtain ⟨c, t, hct, hcns⟩ := hshape
    show append_log_text (append_log_text initial ts1 m1) ts2 m2 = _
    rw [hct]
    show pyStripEnd (pyStripStart ((c :: t) ++ _)) = _
    rw [pyStripStart_cons_append c t _ hcns]
    rw [show (c :: t) ++ '\n' :: '\n' :: '[' :: (ts2 ++ ']' :: '\n' :: m2) =
      (c :: (t ++ '\n' :: '\n' :: '[' :: (ts2 ++ [']', '\n']))) ++ m2 by simp]
    rw [pyStripEnd_append _ _ hm2 hm2e]
  refine ⟨by rw [hsecond, hA1c], ?_⟩
  by_cases hL : pyStripStart initial = []
  · have hps : pyStrip initial = [] := by
      show pyStripEnd (pyStripStart initial) = []
      rw [hL]
      rfl
    exact ⟨append_log_twice initial ts1 m1 ts2 m2, by rw [hps]; rfl⟩
  · obtain ⟨w, hw⟩ := List.rdropWhile_prefix isPySpace (pyStripStart initial)
    have hw' : pyStrip initial ++ w = pyStripStart initial := hw
    refine ⟨w ++ ('\n' :: '\n' :: '[' :: (ts1 ++ ']' :: '\n' :: m1)) ++
      '\n' :: '\n' :: '[' :: (ts2 ++ ']' :: '\n' :: m2), ?_⟩
    rw [hsecond, hA1c, if_neg hL, ← hw']
    simp

/-- Witness for C7 (amended) at a nonempty prior log `"old"` and the
message `"hello"` twice: both entries appear preceded by blank lines
and the prior text survives as a prefix. -/
theorem append_twice_characterization_witness :
    (append_log_twice ("old".data) ("2025-06-01 10:00".data) ("hello".data)
        ("2025-06-01 10:01".data) ("hello".data) =
      (if pyStripStart ("old".data) = [] then
        '[' :: ("2025-06-01 10:00".data ++ ']' :: '\n' :: "hello".data)
       else pyStripStart ("old".data) ++
         '\n' :: '\n' :: '[' :: ("2025-06-01 10:00".data ++ ']' :: '\n' :: "hello".data))
      ++ '\n' :: '\n' :: '[' :: ("2025-06-01 10:01".data ++ ']' :: '\n' :: "hello".data))
    ∧ ∃ rest, append_log_twice ("old".data) ("2025-06-01 10:00".data) ("hello".data)
        ("2025-06-01 10:01".data) ("hello".data) = pyStrip ("old".data) ++ rest :=
  append_twice_characterization ("old".data) ("2025-06-01 10:00".data) ("hello".data)
    ("2025-06-01 10:01".data) ("hello".data)
    (by decide) (by decide) (by decide) (by decide)

/-- C9 (counterexample): on a GraphQL error response (the CRM responded
but reported a domain failure), `create_lead` does not fail with a
`ServiceError`: the `result["data"]` subscript raises `KeyError` —
`_execute_query` never inspects the body for GraphQL errors and no
`ServiceError` type exists in the Monday client. -/
theorem create_error_response_cex :
    create_lead_extract_id
        (Json.obj [("errors", Json.arr [Json.str "Mutation failed"])]) =
      Except.error (PyErr.keyErr "data") := rfl

/-- C9 (amended): on every CRM response lacking the
`data.create_item.id` path (every non-success create response),
`create_lead` does fail, but by raising the `KeyError`/`TypeError` of
the subscript chain, never a `ServiceError`, which the client does not
define or raise. -/
theorem create_nonsuccess_fails (resp : Json) :
    ((¬∃ v, create_lead_extract_id resp = Except.ok v) →
      ∃ e, create_lead_extract_id resp = Except.error e ∧
        (e = PyErr.typeErr ∨ ∃ k, e = PyErr.keyErr k))
    ∧ ∀ msg, create_lead_extract_id resp ≠ Except.error (PyErr.serviceErr msg) := by
  have hIdx : ∀ (j : Json) (k : String) (e : PyErr), pyIndex j k = Except.error e →
      e = PyErr.typeErr ∨ ∃ key, e = PyErr.keyErr key := by
    intro j k e h
    rcases j with _ | _ | _ | _ | _ | fields
    · exact Or.inl (show PyErr.typeErr = e by simpa [pyIndex] using h).symm
    · exact Or.inl (show PyErr.typeErr = e by simpa [pyIndex] using h).symm
    · exact Or.inl (show PyErr.typeErr = e by simpa [pyIndex] using h).symm
    · exact Or.inl (show PyErr.typeErr = e by simpa [pyIndex] using h).symm
    · exact Or.inl (show PyErr.typeErr = e by simpa [pyIndex] using h).symm
    · simp only [pyIndex] at h
      rcases hg : jsonGet fields k with _ | v
      · rw [hg] at h
        exact Or.inr ⟨k, (show PyErr.keyErr k = e by simpa using h).symm⟩
      · rw [hg] at h
        exact absurd h (by simp)
  constructor
  · intro hno
    rcases h1 : pyIndex resp ("data") with e1 | d
    · refine ⟨e1, ?_, hIdx _ _ _ h1⟩
      unfold create_lead_extract_id
      rw [h1]
      rfl
    · rcases h2 : pyIndex d ("create_item") with e2 | ci
      · refine ⟨e2, ?_, hIdx _ _ _ h2⟩
        unfold create_lead_extract_id
        rw [h1]
        show pyIndex d ("create_item") >>= _ = _
        rw [h2]
        rfl
      · rcases h3 : pyIndex ci ("id") with e3 | v
        · refine ⟨e3, ?_, hIdx _ _ _ h3⟩
          unfold create_lead_extract_id
          rw [h1]
          show pyIndex d ("create_item") >>= _ = _
          rw [h2]
          show pyIndex ci ("id") = _
          rw [h3]
        · exfalso
          apply hno
          refine ⟨v, ?_⟩
          unfold create_lead_extract_id
          rw [h1]
          show pyIndex d ("create_item") >>= _ = _
          rw [h2]
          show pyIndex ci ("id") = _
          rw [h3]
  · intro msg hsvc
    rcases h1 : pyIndex resp ("data") with e1 | d
    · have : create_lead_extract_id resp = Except.error e1 := by
        unfold create_lead_extract_id
        rw [h1]
        rfl
      rw [this] at hsvc
      have he : e1 = PyErr.serviceErr msg := by simpa using hsvc
      rcases hIdx _ _ _ h1 with h | ⟨k, h⟩ <;> simp [he] at h
    · rcases h2 : pyIndex d ("create_item") with e2 | ci
      · have : create_lead_extract_id resp = Except.error e2 := by
          unfold create_lead_extract_id
          rw [h1]
          show pyIndex d ("create_item") >>= _ = _
          rw [h2]
          rfl
        rw [this] at hsvc
        have he : e2 = PyErr.serviceErr msg := by simpa using hsvc
        rcases hIdx _ _ _ h2 with h | ⟨k, h⟩ <;> simp [he] at h
      · rcases h3 : pyIndex ci ("id") with e3 | v
        · have : create_lead_extract_id resp = Except.error e3 := by
            unfold create_lead_extract_id
            rw [h1]
            show pyIndex d ("create_item") >>= _ = _
            rw [h2]
            show pyIndex ci ("id") = _
            rw [h3]
          rw [this] at hsvc
          have he : e3 = PyErr.serviceErr msg := by simpa using hsvc
          rcases hIdx _ _ _ h3 with h | ⟨k, h⟩ <;> simp [he] at h
        · have : create_lead_extract_id resp = Except.ok v := by
            unfold create_lead_extract_id
            rw [h1]
            show pyIndex d ("create_item") >>= _ = _
            rw [h2]
            show pyIndex ci ("id") = _
            rw [h3]
          rw [this] at hsvc
          exact Except.noConfusion hsvc

/-- Witness for C9 (amended) on a concrete GraphQL error response. -/
theorem create_nonsuccess_fails_witness :
    ∃ e, create_lead_extract_id (Json.obj [("errors", Json.arr [])]) =
        Except.error e ∧ (e = PyErr.typeErr ∨ ∃ k, e = PyErr.keyErr k) :=
  (create_nonsuccess_fails (Json.obj [("errors", Json.arr [])])).1
    (by
      rintro ⟨v, hv⟩
      rw [show create_lead_extract_id (Json.obj [("errors", Json.arr [])]) =
        Except.error (PyErr.keyErr "data") from rfl] at hv
      exact Except.noConfusion hv)

/-- Witness for C10 at a concrete script and inputs. -/
theorem agent_status_mapping_witness :
    map_agent_status (some ("launching".data)) = AgentStatus.finished
    ∧ wait_for_agent (fun _ => { statusField := some ("launching".data) }) 300 10 5 =
        some (Except.ok
          (get_agent_output ({ statusField := some ("launching".data) } : RawOutputResp), 1, 0)) :=
  ⟨(agent_status_mapping none (fun _ => { statusField := some ("launching".data) })
      300 10 5 (by decide) rfl).2.2.2.1,
   (agent_status_mapping none (fun _ => { statusField := some ("launching".data) })
      300 10 5 (by decide) rfl).2.2.2.2⟩

end LeadGen
